import Mathlib

/-
  Shallow embedding of the rusticom NES emulator core (src/cpu.rs, src/bus.rs,
  src/mem.rs, src/opcode.rs, src/ppu/*.rs, src/trace.rs) in Lean 4.

  Conventions of the embedding:
  - Machine integers are Nat with explicit masking where the Rust code wraps
    (wrapping_add, wrapping_sub, casts).  Fields declared u8 or u16 in Rust
    hold plain Nat here; the operations mask exactly where the Rust
    operations wrap or truncate.
  - Fixed-size Rust arrays (cpu_vram[2048], vram[2048], oam_data[256],
    palette_table[32]) are total functions Nat -> Nat; an indexing operation
    whose index is not forced in range by masking or by the u8 type in Rust
    is guarded by the array length and yields an error, matching the Rust
    panic on out-of-bounds indexing.  Growable vectors (prg_rom, chr_rom)
    are List Nat, with get? returning an error on out-of-bounds, again
    matching the Rust panic.
  - Fallible operations return Except EmuErr; every Rust panic, todo or
    unimplemented reachable from the modelled code is an EmuErr value.
-/

namespace Rusticom

/-- Errors of the emulator core.  Each constructor corresponds to a panic,
todo or unimplemented site in the Rust source, or to the lookup failure of
the opcode map. -/
inductive EmuErr where
  | writeOnlyRead (addr : Nat)
  | romWrite (addr : Nat)
  | oamDmaUnimplemented
  | ppuIllegalRegionRead (addr : Nat)
  | ppuIllegalRegionWrite (addr : Nat)
  | ppuUnexpectedMirror (addr : Nat)
  | ppuIndexOutOfRange (addr : Nat)
  | romIndexOutOfRange (addr : Nat)
  | illegalHalt
  | unknownOpcode (code : Nat)
  | unsupportedMode

/-- Mirroring mode of the cartridge, from src/rom. -/
inductive Mirroring where
  | vertical
  | horizontal
  | fourScreen

/-- Wrapping 8-bit subtraction, modelling u8 wrapping_sub. -/
def wsub8 (a b : Nat) : Nat := (a % 256 + (256 - b % 256)) % 256

/-- Wrapping 16-bit subtraction, modelling u16 wrapping_sub. -/
def wsub16 (a b : Nat) : Nat := (a % 65536 + (65536 - b % 65536)) % 65536

/-- Sign extension of a byte to 16 bits, modelling the Rust cast chain
u8 as i8 as u16 used by the branch helper. -/
def signExt8 (j : Nat) : Nat := if j < 0x80 then j else j + 0xFF00

/-- The PPU address register, from src/ppu/addrreg.rs. -/
structure AddrReg where
  hiValue : Nat
  loValue : Nat
  hiPtr : Bool

/-- AddressRegister::new. -/
def AddrReg.new : AddrReg := { hiValue := 0, loValue := 0, hiPtr := true }

/-- AddressRegister::get_addr: ((hi as u16) << 8) | lo as u16. -/
def AddrReg.getAddr (r : AddrReg) : Nat := (r.hiValue <<< 8) ||| r.loValue

/-- AddressRegister::set: split a 16-bit address into its bytes. -/
def AddrReg.set (r : AddrReg) (addr : Nat) : AddrReg :=
  { r with hiValue := (addr >>> 8) % 256, loValue := addr &&& 0xFF }

/-- AddressRegister::update (the one-argument form defined in addrreg.rs,
driven by the internal hi_ptr; the caller in ppu/mod.rs toggles its own w
flag as well).  Masks the accumulated address to 14 bits when it exceeds
0x3FFF. -/
def AddrReg.update (r : AddrReg) (part : Nat) : AddrReg :=
  let r := if r.hiPtr then { r with hiValue := part % 256 }
           else { r with loValue := part % 256 }
  let r := if r.getAddr > 0x3FFF then r.set (r.getAddr &&& 0x3FFF) else r
  { r with hiPtr := !r.hiPtr }

/-- AddressRegister::increment: add inc to the low byte, carry into the high
byte on overflow, then mask to 14 bits when the result exceeds 0x3FFF. -/
def AddrReg.increment (r : AddrReg) (inc : Nat) : AddrReg :=
  let ovf := r.loValue + inc ≥ 256
  let r := { r with loValue := (r.loValue + inc) % 256 }
  let r := if ovf then { r with hiValue := (r.hiValue + 1) % 256 } else r
  if r.getAddr > 0x3FFF then r.set (r.getAddr &&& 0x3FFF) else r

/-- The PPU state, from src/ppu/mod.rs.  The control, mask and status
registers are the raw flag bytes of their bitflags structs; the scroll
register is its x and y bytes. -/
structure PPU where
  chrRom : List Nat
  paletteTable : Nat → Nat
  vram : Nat → Nat
  oamData : Nat → Nat
  mirroring : Mirroring
  addr : AddrReg
  ctrl : Nat
  mask : Nat
  status : Nat
  scrollX : Nat
  scrollY : Nat
  oamAddr : Nat
  cycles : Nat
  scanline : Nat
  internalDataBuf : Nat
  w : Bool
  nmiInterrupt : Bool

/-- PPU::new. -/
def PPU.new (chrRom : List Nat) (mirroring : Mirroring) : PPU :=
  { chrRom := chrRom
    mirroring := mirroring
    vram := fun _ => 0
    oamData := fun _ => 0
    oamAddr := 0
    paletteTable := fun _ => 0
    cycles := 0
    scanline := 0
    internalDataBuf := 0
    addr := AddrReg.new
    ctrl := 0
    mask := 0
    status := 0
    scrollX := 0
    scrollY := 0
    w := true
    nmiInterrupt := false }

/-- ControlRegister::vram_addr_inc: 32 when the VRAM_ADDR_INC bit (0x04) is
set, else 1. -/
def PPU.vramAddrInc (p : PPU) : Nat := if p.ctrl &&& 0x04 == 0x04 then 32 else 1

/-- PPU::write_to_ppu_ctrl: store the byte; when the GENERATE_NMI bit (0x80)
transitions from clear to set while the VBLANK flag (0x80 of status) is set,
raise nmi_interrupt. -/
def PPU.writeToCtrl (p : PPU) (value : Nat) : PPU :=
  let before := p.ctrl &&& 0x80 == 0x80
  let p := { p with ctrl := value % 256 }
  if !before && (p.ctrl &&& 0x80 == 0x80) && (p.status &&& 0x80 == 0x80) then
    { p with nmiInterrupt := true }
  else p

/-- PPU::write_to_ppu_mask. -/
def PPU.writeToMask (p : PPU) (value : Nat) : PPU := { p with mask := value % 256 }

/-- PPU::write_to_ppu_scroll: the scroll register stores into y when w is
set, else into x; the w toggle is then flipped. -/
def PPU.writeToScroll (p : PPU) (value : Nat) : PPU :=
  let p := if p.w then { p with scrollY := value } else { p with scrollX := value }
  { p with w := !p.w }

/-- PPU::write_to_ppu_addr.  Note: ppu/mod.rs invokes the address register
update with the shared w flag while addrreg.rs defines a one-argument update
driven by the internal hi_ptr; we follow the one-argument definition from
addrreg.rs and flip w as ppu/mod.rs does.  No claim depends on this
operation. -/
def PPU.writeToAddr (p : PPU) (value : Nat) : PPU :=
  let p := { p with addr := p.addr.update value }
  { p with w := !p.w }

/-- PPU::mirror_vram_addr: mask to the 0x2000-0x2FFF window, subtract the
base, fold the four logical nametables per the cartridge mirroring. -/
def PPU.mirrorVramAddr (p : PPU) (addr : Nat) : Nat :=
  let mirrored := addr &&& 0xBFFF
  let vramIndex := mirrored - 0x2000
  let nameTable := vramIndex / 0x0400
  match p.mirroring, nameTable with
  | .vertical, 2 => vramIndex - 0x0800
  | .vertical, 3 => vramIndex - 0x0800
  | .horizontal, 2 => vramIndex - 0x0400
  | .horizontal, 1 => vramIndex - 0x0400
  | .horizontal, 3 => vramIndex - 0x0800
  | _, _ => vramIndex

/-- PPU::inc_vram_addr. -/
def PPU.incVramAddr (p : PPU) : PPU :=
  { p with addr := p.addr.increment p.vramAddrInc }

/-- PPU::read_data ($2007 read): capture the current VRAM address, increment
the address register, then dispatch on the captured address.  CHR and
nametable reads are buffered through internal_data_buf; palette reads return
the palette entry directly without touching the buffer; the 0x3000-0x3EFF
window panics. -/
def PPU.readData (p : PPU) : Except EmuErr (Nat × PPU) :=
  let addr := p.addr.getAddr
  let p := p.incVramAddr
  if addr ≤ 0x1FFF then
    match p.chrRom.get? addr with
    | some v => .ok (p.internalDataBuf, { p with internalDataBuf := v })
    | none => .error (.ppuIndexOutOfRange addr)
  else if addr ≤ 0x2FFF then
    let i := p.mirrorVramAddr addr
    if i < 2048 then .ok (p.internalDataBuf, { p with internalDataBuf := p.vram i })
    else .error (.ppuIndexOutOfRange addr)
  else if addr ≤ 0x3EFF then .error (.ppuIllegalRegionRead addr)
  else if addr ≤ 0x3FFF then
    if addr - 0x3F00 < 32 then .ok (p.paletteTable (addr - 0x3F00), p)
    else .error (.ppuIndexOutOfRange addr)
  else .error (.ppuUnexpectedMirror addr)

/-- PPU::write_data ($2007 write): dispatch on the current VRAM address
(writes to CHR space are discarded with a warning; the 0x3000-0x3EFF window
is unimplemented), then increment the address register. -/
def PPU.writeData (p : PPU) (value : Nat) : Except EmuErr PPU :=
  let addr := p.addr.getAddr
  let res : Except EmuErr PPU :=
    if addr ≤ 0x1FFF then .ok p
    else if addr ≤ 0x2FFF then
      let i := p.mirrorVramAddr addr
      if i < 2048 then
        .ok { p with vram := fun j => if j = i then value else p.vram j }
      else .error (.ppuIndexOutOfRange addr)
    else if addr ≤ 0x3EFF then .error (.ppuIllegalRegionWrite addr)
    else if addr ≤ 0x3FFF then
      if addr - 0x3F00 < 32 then
        .ok { p with paletteTable := fun j => if j = addr - 0x3F00 then value else p.paletteTable j }
      else .error (.ppuIndexOutOfRange addr)
    else .error (.ppuUnexpectedMirror addr)
  match res with
  | .ok p2 => .ok p2.incVramAddr
  | .error e => .error e

/-- PPU::read_status ($2002 read): clear the shared w toggle, capture the
status byte, clear the VBLANK flag, return the captured byte. -/
def PPU.readStatus (p : PPU) : Nat × PPU :=
  let p := { p with w := false }
  let status := p.status
  (status, { p with status := p.status &&& 0x7F })

/-- PPU::read_oam_data ($2004 read): return the OAM byte at oam_addr, no
increment, no mutation. -/
def PPU.readOamData (p : PPU) : Nat := p.oamData p.oamAddr

/-- PPU::tick: add the cycles; on crossing 341 dots advance the scanline.
When the new scanline is 241 and the GENERATE_NMI control bit is set, set
the VBLANK status flag and raise nmi_interrupt (both updates are nested
under the GENERATE_NMI test in the source).  When the scanline reaches 262,
wrap to 0, clear VBLANK and report frame completion. -/
def PPU.tick (p : PPU) (cycles : Nat) : Bool × PPU :=
  let p := { p with cycles := p.cycles + cycles }
  if p.cycles ≥ 341 then
    let p := { p with cycles := p.cycles - 341, scanline := p.scanline + 1 }
    let p :=
      if p.scanline == 241 then
        if p.ctrl &&& 0x80 == 0x80 then
          { p with status := p.status ||| 0x80, nmiInterrupt := true }
        else p
      else p
    if p.scanline ≥ 262 then
      (true, { p with scanline := 0, status := p.status &&& 0x7F })
    else (false, p)
  else (false, p)

/-- The bus state, from src/bus.rs. -/
structure Bus where
  cpuVram : Nat → Nat
  cycles : Nat
  prgRom : List Nat
  ppu : PPU
  allowRomWrites : Bool

/-- The PPU register dispatch of Bus::mem_read for a base register address
(0x2000-0x2007) or 0x4014.  In the source this dispatch is spread over the
arms of the mem_read match; the mirror arm recurses into the same match
with addr AND 0x2007, which always lands on one of these arms, so the
one-level recursion is inlined here to keep the definition structural.
Reads of the write-only registers (CTRL, MASK, OAMADDR, SCROLL, ADDR) and
of 0x4014 panic; $2002, $2004 and $2007 go to the PPU.  The final branch is
unreachable for register addresses and mirrors the ignore arm. -/
def Bus.ppuRegisterRead (b : Bus) (addr : Nat) : Except EmuErr (Nat × Bus) :=
  if addr = 0x2000 ∨ addr = 0x2001 ∨ addr = 0x2003 ∨ addr = 0x2005 ∨
     addr = 0x2006 ∨ addr = 0x4014 then
    .error (.writeOnlyRead addr)
  else if addr = 0x2002 then
    let (v, p) := b.ppu.readStatus
    .ok (v, { b with ppu := p })
  else if addr = 0x2004 then
    .ok (b.ppu.readOamData, b)
  else if addr = 0x2007 then
    match b.ppu.readData with
    | .ok (v, p) => .ok (v, { b with ppu := p })
    | .error e => .error e
  else
    .ok (0, b)

/-- Bus::mem_read: route a CPU address.  RAM is mirrored with addr AND
0x07FF; the base PPU registers and 0x4014 dispatch through
ppuRegisterRead; 0x2008-0x3FFF dispatches through the addr AND 0x2007
mirror (the recursive call of the source, inlined); 0x8000-0xFFFF reads
PRG ROM through addr AND 0x7FFF with a further mod 0x4000 mirror for
16 KiB ROMs; anything else logs and returns 0. -/
def Bus.memRead (b : Bus) (addr : Nat) : Except EmuErr (Nat × Bus) :=
  if addr ≤ 0x1FFF then
    .ok (b.cpuVram (addr &&& 0x07FF), b)
  else if addr = 0x2000 ∨ addr = 0x2001 ∨ addr = 0x2002 ∨ addr = 0x2003 ∨
          addr = 0x2004 ∨ addr = 0x2005 ∨ addr = 0x2006 ∨ addr = 0x2007 ∨
          addr = 0x4014 then
    b.ppuRegisterRead addr
  else if 0x2008 ≤ addr ∧ addr ≤ 0x3FFF then
    b.ppuRegisterRead (addr &&& 0x2007)
  else if 0x8000 ≤ addr ∧ addr ≤ 0xFFFF then
    let maskApply := addr &&& 0x7FFF
    let maskApply := if b.prgRom.length = 0x4000 ∧ addr ≥ 0x4000
                     then maskApply % 0x4000 else maskApply
    match b.prgRom.get? maskApply with
    | some v => .ok (v, b)
    | none => .error (.romIndexOutOfRange addr)
  else
    .ok (0, b)

/-- The PPU register dispatch of Bus::mem_write for a base register address
(0x2000-0x2007), inlining the one-level mirror recursion of the source
exactly as in ppuRegisterRead.  The $2002 and $2004 offsets have no write
arm in the source and fall through to the ignore arm. -/
def Bus.ppuRegisterWrite (b : Bus) (addr data : Nat) : Except EmuErr Bus :=
  if addr = 0x2000 then .ok { b with ppu := b.ppu.writeToCtrl data }
  else if addr = 0x2001 then .ok { b with ppu := b.ppu.writeToMask data }
  else if addr = 0x2003 then .ok { b with ppu := { b.ppu with oamAddr := data } }
  else if addr = 0x2005 then .ok { b with ppu := b.ppu.writeToScroll data }
  else if addr = 0x2006 then .ok { b with ppu := b.ppu.writeToAddr data }
  else if addr = 0x2007 then
    match b.ppu.writeData data with
    | .ok p => .ok { b with ppu := p }
    | .error e => .error e
  else
    .ok b

/-- Bus::mem_write: route a CPU write.  RAM is mirrored with addr AND
0x07FF; the base PPU registers dispatch through ppuRegisterWrite;
0x2008-0x3FFF dispatches through the addr AND 0x2007 mirror (the recursive
call of the source, inlined); 0x4014 is the OAM DMA arm, which ends in
todo; PRG writes require allow_rom_writes and otherwise panic; anything
else is ignored. -/
def Bus.memWrite (b : Bus) (addr data : Nat) : Except EmuErr Bus :=
  if addr ≤ 0x1FFF then
    .ok { b with cpuVram := fun i => if i = addr &&& 0x07FF then data else b.cpuVram i }
  else if addr = 0x2000 ∨ addr = 0x2001 ∨ addr = 0x2003 ∨ addr = 0x2005 ∨
          addr = 0x2006 ∨ addr = 0x2007 then
    b.ppuRegisterWrite addr data
  else if 0x2008 ≤ addr ∧ addr ≤ 0x3FFF then
    b.ppuRegisterWrite (addr &&& 0x2007) data
  else if addr = 0x4014 then
    .error .oamDmaUnimplemented
  else if 0x8000 ≤ addr ∧ addr ≤ 0xFFFF then
    if b.allowRomWrites then
      if addr &&& 0x7FFF < b.prgRom.length then
        .ok { b with prgRom := b.prgRom.set (addr &&& 0x7FFF) data }
      else .error (.romIndexOutOfRange addr)
    else .error (.romWrite addr)
  else
    .ok b

/-- Mem::mem_read_u16 (default trait method in src/mem.rs): read the low
byte at pos and the high byte at pos wrapping_add 1, assemble little
endian. -/
def Bus.memReadU16 (b : Bus) (pos : Nat) : Except EmuErr (Nat × Bus) := do
  let (lo, b) ← b.memRead pos
  let (hi, b) ← b.memRead ((pos + 1) % 0x10000)
  .ok ((hi <<< 8) ||| lo, b)

/-- Mem::mem_write_u16 (default trait method in src/mem.rs): write the low
byte at pos and the high byte at pos wrapping_add 1. -/
def Bus.memWriteU16 (b : Bus) (pos data : Nat) : Except EmuErr Bus := do
  let lo := data % 256
  let hi := (data / 256) % 256
  let b ← b.memWrite pos lo
  b.memWrite ((pos + 1) % 0x10000) hi

/-- Bus::tick: advance the bus cycle counter by the instruction cycles and
tick the PPU by three times as many PPU cycles (u8 multiply in the
source). -/
def Bus.tick (b : Bus) (cycles : Nat) : Bus :=
  let b := { b with cycles := b.cycles + cycles }
  { b with ppu := (b.ppu.tick ((cycles * 3) % 256)).2 }

/-- Addressing modes, from src/cpu.rs. -/
inductive AddressingMode where
  | Immediate
  | ZeroPage
  | ZeroPage_X
  | ZeroPage_Y
  | Absolute
  | Absolute_X
  | Absolute_Y
  | Indirect
  | Indirect_X
  | Indirect_Y
  | Implied
  | None

/-- One entry of the opcode table, from src/opcode.rs (the mnemonic string
is omitted; it plays no role in execution). -/
structure OpCode where
  len : Nat
  cycles : Nat
  mode : AddressingMode
  undocumented : Bool

/-- Constructs one table entry of CPU_OP_CODES (OpCode::new and
OpCode::new_undoc with the mnemonic dropped). -/
def opEntry (code len cycles : Nat) (mode : AddressingMode) (undoc : Bool) : Nat × OpCode :=
  (code, { len := len, cycles := cycles, mode := mode, undocumented := undoc })

/-- CPU_OP_CODES and OPCODES_MAP from src/opcode.rs: the 252 table entries
keyed by opcode byte, listed by byte value (the map is keyed, so ordering
is immaterial).  The bytes 0x8B, 0x9B, 0x9C and 0x9E have match arms in
the run loop but no table entry, so the lookup in run_with_callback panics
on them before dispatch; find? returns none for them here. -/
def CPU_OP_CODES : List (Nat × OpCode) := [
  opEntry 0x00 1 7 .None false,
  opEntry 0x01 2 6 .Indirect_X false,
  opEntry 0x02 1 1 .None true,
  opEntry 0x03 2 8 .Indirect_X true,
  opEntry 0x04 2 3 .ZeroPage true,
  opEntry 0x05 2 3 .ZeroPage false,
  opEntry 0x06 2 5 .ZeroPage false,
  opEntry 0x07 2 5 .ZeroPage true,
  opEntry 0x08 1 3 .None false,
  opEntry 0x09 2 2 .Immediate false,
  opEntry 0x0A 1 2 .None false,
  opEntry 0x0B 2 2 .Immediate true,
  opEntry 0x0C 3 4 .Absolute true,
  opEntry 0x0D 3 4 .Absolute false,
  opEntry 0x0E 3 6 .Absolute false,
  opEntry 0x0F 3 6 .Absolute true,
  opEntry 0x10 2 2 .None false,
  opEntry 0x11 2 5 .Indirect_Y false,
  opEntry 0x12 1 1 .None true,
  opEntry 0x13 2 8 .Indirect_Y true,
  opEntry 0x14 2 4 .ZeroPage_X true,
  opEntry 0x15 2 4 .ZeroPage_X false,
  opEntry 0x16 2 6 .ZeroPage_X false,
  opEntry 0x17 2 6 .ZeroPage_X true,
  opEntry 0x18 1 2 .None false,
  opEntry 0x19 3 4 .Absolute_Y false,
  opEntry 0x1A 1 2 .None true,
  opEntry 0x1B 3 7 .Absolute_Y true,
  opEntry 0x1C 3 4 .Absolute_X true,
  opEntry 0x1D 3 4 .Absolute_X false,
  opEntry 0x1E 3 7 .Absolute_X false,
  opEntry 0x1F 3 7 .Absolute_X true,
  opEntry 0x20 3 6 .None false,
  opEntry 0x21 2 6 .Indirect_X false,
  opEntry 0x22 1 1 .None true,
  opEntry 0x23 2 8 .Indirect_X true,
  opEntry 0x24 2 3 .ZeroPage false,
  opEntry 0x25 2 3 .ZeroPage false,
  opEntry 0x26 2 5 .ZeroPage false,
  opEntry 0x27 2 5 .ZeroPage true,
  opEntry 0x28 1 4 .None false,
  opEntry 0x29 2 2 .Immediate false,
  opEntry 0x2A 1 2 .None false,
  opEntry 0x2B 2 2 .Immediate true,
  opEntry 0x2C 3 4 .Absolute false,
  opEntry 0x2D 3 4 .Absolute false,
  opEntry 0x2E 3 6 .Absolute false,
  opEntry 0x2F 3 6 .Absolute true,
  opEntry 0x30 2 2 .None false,
  opEntry 0x31 2 5 .Indirect_Y false,
  opEntry 0x32 1 1 .None true,
  opEntry 0x33 2 8 .Indirect_Y true,
  opEntry 0x34 2 4 .ZeroPage_X true,
  opEntry 0x35 2 4 .ZeroPage_X false,
  opEntry 0x36 2 6 .ZeroPage_X false,
  opEntry 0x37 2 6 .ZeroPage_X true,
  opEntry 0x38 1 2 .None false,
  opEntry 0x39 3 4 .Absolute_Y false,
  opEntry 0x3A 1 2 .None true,
  opEntry 0x3B 3 7 .Absolute_Y true,
  opEntry 0x3C 3 4 .Absolute_X true,
  opEntry 0x3D 3 4 .Absolute_X false,
  opEntry 0x3E 3 7 .Absolute_X false,
  opEntry 0x3F 3 7 .Absolute_X true,
  opEntry 0x40 1 6 .None false,
  opEntry 0x41 2 6 .Indirect_X false,
  opEntry 0x42 1 1 .None true,
  opEntry 0x43 2 8 .Indirect_X true,
  opEntry 0x44 2 3 .ZeroPage true,
  opEntry 0x45 2 3 .ZeroPage false,
  opEntry 0x46 2 5 .ZeroPage false,
  opEntry 0x47 2 5 .ZeroPage true,
  opEntry 0x48 1 3 .None false,
  opEntry 0x49 2 2 .Immediate false,
  opEntry 0x4A 1 2 .None false,
  opEntry 0x4B 2 2 .Immediate true,
  opEntry 0x4C 3 3 .None false,
  opEntry 0x4D 3 4 .Absolute false,
  opEntry 0x4E 3 6 .Absolute false,
  opEntry 0x4F 3 6 .Absolute true,
  opEntry 0x50 2 2 .None false,
  opEntry 0x51 2 5 .Indirect_Y false,
  opEntry 0x52 1 1 .None true,
  opEntry 0x53 2 8 .Indirect_Y true,
  opEntry 0x54 2 4 .ZeroPage_X true,
  opEntry 0x55 2 4 .ZeroPage_X false,
  opEntry 0x56 2 6 .ZeroPage_X false,
  opEntry 0x57 2 6 .ZeroPage_X true,
  opEntry 0x58 1 2 .None false,
  opEntry 0x59 3 4 .Absolute_Y false,
  opEntry 0x5A 1 2 .None true,
  opEntry 0x5B 3 7 .Absolute_Y true,
  opEntry 0x5C 3 4 .Absolute_X true,
  opEntry 0x5D 3 4 .Absolute_X false,
  opEntry 0x5E 3 7 .Absolute_X false,
  opEntry 0x5F 3 7 .Absolute_X true,
  opEntry 0x60 1 6 .None false,
  opEntry 0x61 2 6 .Indirect_X false,
  opEntry 0x62 1 1 .None true,
  opEntry 0x63 2 8 .Indirect_X true,
  opEntry 0x64 2 3 .ZeroPage true,
  opEntry 0x65 2 3 .ZeroPage false,
  opEntry 0x66 2 5 .ZeroPage false,
  opEntry 0x67 2 5 .ZeroPage true,
  opEntry 0x68 1 4 .None false,
  opEntry 0x69 2 2 .Immediate false,
  opEntry 0x6A 1 2 .None false,
  opEntry 0x6B 2 2 .Immediate true,
  opEntry 0x6C 3 5 .None false,
  opEntry 0x6D 3 4 .Absolute false,
  opEntry 0x6E 3 6 .Absolute false,
  opEntry 0x6F 3 6 .Absolute true,
  opEntry 0x70 2 2 .None false,
  opEntry 0x71 2 5 .Indirect_Y false,
  opEntry 0x72 1 1 .None true,
  opEntry 0x73 2 8 .Indirect_Y true,
  opEntry 0x74 2 4 .ZeroPage_X true,
  opEntry 0x75 2 4 .ZeroPage_X false,
  opEntry 0x76 2 6 .ZeroPage_X false,
  opEntry 0x77 2 8 .ZeroPage_X true,
  opEntry 0x78 1 2 .None false,
  opEntry 0x79 3 4 .Absolute_Y false,
  opEntry 0x7A 1 2 .None true,
  opEntry 0x7B 3 7 .Absolute_Y true,
  opEntry 0x7C 3 4 .Absolute_X true,
  opEntry 0x7D 3 4 .Absolute_X false,
  opEntry 0x7E 3 7 .Absolute_X false,
  opEntry 0x7F 3 7 .Absolute_X true,
  opEntry 0x80 2 2 .Immediate true,
  opEntry 0x81 2 6 .Indirect_X false,
  opEntry 0x82 2 2 .Immediate true,
  opEntry 0x83 2 6 .Indirect_X true,
  opEntry 0x84 2 3 .ZeroPage false,
  opEntry 0x85 2 3 .ZeroPage false,
  opEntry 0x86 2 3 .ZeroPage false,
  opEntry 0x87 2 3 .ZeroPage true,
  opEntry 0x88 1 2 .None false,
  opEntry 0x89 2 2 .Immediate true,
  opEntry 0x8A 1 2 .None false,
  opEntry 0x8C 3 4 .Absolute false,
  opEntry 0x8D 3 4 .Absolute false,
  opEntry 0x8E 3 4 .Absolute false,
  opEntry 0x8F 3 4 .Absolute true,
  opEntry 0x90 2 2 .None false,
  opEntry 0x91 2 6 .Indirect_Y false,
  opEntry 0x92 1 1 .None true,
  opEntry 0x93 2 6 .Indirect_Y true,
  opEntry 0x94 2 4 .ZeroPage_X false,
  opEntry 0x95 2 4 .ZeroPage_X false,
  opEntry 0x96 2 4 .ZeroPage_Y false,
  opEntry 0x97 2 4 .ZeroPage_Y true,
  opEntry 0x98 1 2 .None false,
  opEntry 0x99 3 5 .Absolute_Y false,
  opEntry 0x9A 1 2 .None false,
  opEntry 0x9D 3 5 .Absolute_X false,
  opEntry 0x9F 3 5 .Absolute_Y true,
  opEntry 0xA0 2 2 .Immediate false,
  opEntry 0xA1 2 6 .Indirect_X false,
  opEntry 0xA2 2 2 .Immediate false,
  opEntry 0xA3 2 6 .Indirect_X true,
  opEntry 0xA4 2 3 .ZeroPage false,
  opEntry 0xA5 2 3 .ZeroPage false,
  opEntry 0xA6 2 3 .ZeroPage false,
  opEntry 0xA7 2 3 .ZeroPage true,
  opEntry 0xA8 1 2 .None false,
  opEntry 0xA9 2 2 .Immediate false,
  opEntry 0xAA 1 2 .None false,
  opEntry 0xAB 2 2 .Immediate true,
  opEntry 0xAC 3 4 .Absolute false,
  opEntry 0xAD 3 4 .Absolute false,
  opEntry 0xAE 3 4 .Absolute false,
  opEntry 0xAF 3 4 .Absolute true,
  opEntry 0xB0 2 2 .None false,
  opEntry 0xB1 2 5 .Indirect_Y false,
  opEntry 0xB2 1 1 .None true,
  opEntry 0xB3 2 5 .Indirect_Y true,
  opEntry 0xB4 2 4 .ZeroPage_X false,
  opEntry 0xB5 2 4 .ZeroPage_X false,
  opEntry 0xB6 2 4 .ZeroPage_Y false,
  opEntry 0xB7 2 4 .ZeroPage_Y true,
  opEntry 0xB8 1 2 .None false,
  opEntry 0xB9 3 4 .Absolute_Y false,
  opEntry 0xBA 1 2 .None false,
  opEntry 0xBB 3 4 .Absolute_Y true,
  opEntry 0xBC 3 4 .Absolute_X false,
  opEntry 0xBD 3 4 .Absolute_X false,
  opEntry 0xBE 3 4 .Absolute_Y false,
  opEntry 0xBF 3 4 .Absolute_Y true,
  opEntry 0xC0 2 2 .Immediate false,
  opEntry 0xC1 2 6 .Indirect_X false,
  opEntry 0xC2 2 2 .Immediate true,
  opEntry 0xC3 2 8 .Indirect_X true,
  opEntry 0xC4 2 3 .ZeroPage false,
  opEntry 0xC5 2 3 .ZeroPage false,
  opEntry 0xC6 2 5 .ZeroPage false,
  opEntry 0xC7 2 5 .ZeroPage true,
  opEntry 0xC8 1 2 .None false,
  opEntry 0xC9 2 2 .Immediate false,
  opEntry 0xCA 1 2 .None false,
  opEntry 0xCB 2 2 .Immediate true,
  opEntry 0xCC 3 4 .Absolute false,
  opEntry 0xCD 3 4 .Absolute false,
  opEntry 0xCE 3 6 .Absolute false,
  opEntry 0xCF 3 6 .Absolute true,
  opEntry 0xD0 2 2 .None false,
  opEntry 0xD1 2 5 .Indirect_Y false,
  opEntry 0xD2 1 1 .None true,
  opEntry 0xD3 2 8 .Indirect_Y true,
  opEntry 0xD4 2 4 .ZeroPage_X true,
  opEntry 0xD5 2 4 .ZeroPage_X false,
  opEntry 0xD6 2 6 .ZeroPage_X false,
  opEntry 0xD7 2 6 .ZeroPage_X true,
  opEntry 0xD8 1 2 .None false,
  opEntry 0xD9 3 4 .Absolute_Y false,
  opEntry 0xDA 1 2 .None true,
  opEntry 0xDB 3 7 .Absolute_Y true,
  opEntry 0xDC 3 4 .Absolute_X true,
  opEntry 0xDD 3 4 .Absolute_X false,
  opEntry 0xDE 3 7 .Absolute_X false,
  opEntry 0xDF 3 7 .Absolute_X true,
  opEntry 0xE0 2 2 .Immediate false,
  opEntry 0xE1 2 6 .Indirect_X false,
  opEntry 0xE2 2 2 .Immediate true,
  opEntry 0xE3 2 8 .Indirect_X true,
  opEntry 0xE4 2 3 .ZeroPage false,
  opEntry 0xE5 2 3 .ZeroPage false,
  opEntry 0xE6 2 5 .ZeroPage false,
  opEntry 0xE7 2 5 .ZeroPage true,
  opEntry 0xE8 1 2 .None false,
  opEntry 0xE9 2 2 .Immediate false,
  opEntry 0xEA 1 2 .None false,
  opEntry 0xEB 2 2 .Immediate true,
  opEntry 0xEC 3 4 .Absolute false,
  opEntry 0xED 3 4 .Absolute false,
  opEntry 0xEE 3 6 .Absolute false,
  opEntry 0xEF 3 6 .Absolute true,
  opEntry 0xF0 2 2 .None false,
  opEntry 0xF1 2 5 .Indirect_Y false,
  opEntry 0xF2 1 1 .None true,
  opEntry 0xF3 2 8 .Indirect_Y true,
  opEntry 0xF4 2 4 .ZeroPage_X true,
  opEntry 0xF5 2 4 .ZeroPage_X false,
  opEntry 0xF6 2 6 .ZeroPage_X false,
  opEntry 0xF7 2 6 .ZeroPage_X true,
  opEntry 0xF8 1 2 .None false,
  opEntry 0xF9 3 4 .Absolute_Y false,
  opEntry 0xFA 1 2 .None true,
  opEntry 0xFB 3 7 .Absolute_Y true,
  opEntry 0xFC 3 4 .Absolute_X true,
  opEntry 0xFD 3 4 .Absolute_X false,
  opEntry 0xFE 3 7 .Absolute_X false,
  opEntry 0xFF 3 7 .Absolute_X true]

/-- OPCODES_MAP lookup: the table entry for an opcode byte, none when the
byte is absent from the table. -/
def opcodeTable (code : Nat) : Option OpCode :=
  (List.find? (fun e => e.1 == code) CPU_OP_CODES).map (fun e => e.2)

/-- Status flag bit masks, from the StatusFlags bitflags in src/cpu.rs. -/
def StatusFlags.CARRY : Nat := 0x01

def StatusFlags.ZERO : Nat := 0x02

def StatusFlags.INTERRUPT_DISABLE : Nat := 0x04

def StatusFlags.DECIMAL_MODE : Nat := 0x08

def StatusFlags.BREAK : Nat := 0x10

def StatusFlags.BREAK2 : Nat := 0x20

def StatusFlags.OVERFLOW : Nat := 0x40

def StatusFlags.NEGATIVE : Nat := 0x80

/-- bitflags contains: all bits of the flag are present. -/
def hasFlag (st flag : Nat) : Bool := st &&& flag == flag

/-- bitflags set: insert the flag bits when the condition holds, remove them
otherwise (the status byte is 8 bits wide). -/
def setFlag (st flag : Nat) (b : Bool) : Nat :=
  if b then st ||| flag else st &&& (0xFF ^^^ flag)

/-- The CPU state, from src/cpu.rs. -/
structure CPU where
  registerA : Nat
  registerX : Nat
  registerY : Nat
  stackPointer : Nat
  status : Nat
  programCounter : Nat
  bus : Bus
  enableDecimal : Bool
  pause : Bool

/-- CPU::new: registers zero, stack pointer STACK_RESET = 0xFD, status
STATUS_RESET = 0b0010_0100, program counter 0.  No memory is read. -/
def CPU.new (bus : Bus) : CPU :=
  { registerA := 0
    registerX := 0
    registerY := 0
    stackPointer := 0xFD
    status := 0x24
    programCounter := 0
    bus := bus
    enableDecimal := false
    pause := false }

/-- The Mem impl for CPU forwards reads to the bus. -/
def CPU.memRead (c : CPU) (addr : Nat) : Except EmuErr (Nat × CPU) :=
  match c.bus.memRead addr with
  | .ok (v, b) => .ok (v, { c with bus := b })
  | .error e => .error e

/-- The Mem impl for CPU forwards writes to the bus. -/
def CPU.memWrite (c : CPU) (addr data : Nat) : Except EmuErr CPU :=
  match c.bus.memWrite addr data with
  | .ok b => .ok { c with bus := b }
  | .error e => .error e

/-- The Mem impl for CPU forwards 16-bit reads to the bus. -/
def CPU.memReadU16 (c : CPU) (pos : Nat) : Except EmuErr (Nat × CPU) :=
  match c.bus.memReadU16 pos with
  | .ok (v, b) => .ok (v, { c with bus := b })
  | .error e => .error e

/-- The Mem impl for CPU forwards 16-bit writes to the bus. -/
def CPU.memWriteU16 (c : CPU) (pos data : Nat) : Except EmuErr CPU :=
  match c.bus.memWriteU16 pos data with
  | .ok b => .ok { c with bus := b }
  | .error e => .error e

/-- CPU::reset: zero the registers, restore stack pointer and status to
their reset constants, and load the program counter from the reset vector
at 0xFFFC. -/
def CPU.reset (c : CPU) : Except EmuErr CPU := do
  let c := { c with registerA := 0, registerX := 0, registerY := 0,
                    stackPointer := 0xFD, status := 0x24 }
  let (v, c) ← c.memReadU16 0xFFFC
  .ok { c with programCounter := v }

/-- CPU::resolve_address over a mode and a base address (the operand
position).  The Immediate, Implied and None modes panic here; Immediate is
intercepted by get_operand_address before this point. -/
def CPU.resolveAddress (c : CPU) (mode : AddressingMode) (base : Nat) :
    Except EmuErr (Nat × CPU) :=
  match mode with
  | .ZeroPage => c.memRead base
  | .Absolute => c.memReadU16 base
  | .ZeroPage_X => do
      let (pos, c) ← c.memRead base
      .ok ((pos + c.registerX) % 256, c)
  | .ZeroPage_Y => do
      let (pos, c) ← c.memRead base
      .ok ((pos + c.registerY) % 256, c)
  | .Absolute_X => do
      let (b, c) ← c.memReadU16 base
      .ok ((b + c.registerX) % 0x10000, c)
  | .Absolute_Y => do
      let (b, c) ← c.memReadU16 base
      .ok ((b + c.registerY) % 0x10000, c)
  | .Indirect => do
      let (a, c) ← c.memReadU16 base
      c.memReadU16 a
  | .Indirect_X => do
      let (baseAddr, c) ← c.memRead base
      let ptr := (baseAddr + c.registerX) % 256
      let (lo, c) ← c.memRead ptr
      let (hi, c) ← c.memRead ((ptr + 1) % 256)
      .ok ((hi <<< 8) ||| lo, c)
  | .Indirect_Y => do
      let (baseAddr, c) ← c.memRead base
      let (lo, c) ← c.memRead (baseAddr % 256)
      let (hi, c) ← c.memRead ((baseAddr + 1) % 256)
      let derefBase := (hi <<< 8) ||| lo
      .ok ((derefBase + c.registerY) % 0x10000, c)
  | _ => .error .unsupportedMode

/-- CPU::get_operand_address: Immediate yields the program counter itself,
every other mode resolves relative to the program counter. -/
def CPU.getOperandAddress (c : CPU) (mode : AddressingMode) :
    Except EmuErr (Nat × CPU) :=
  match mode with
  | .Immediate => .ok (c.programCounter, c)
  | _ => c.resolveAddress mode c.programCounter

/-- CPU::update_zero_and_negative_flags. -/
def CPU.updateZN (c : CPU) (result : Nat) : CPU :=
  let st := setFlag c.status StatusFlags.ZERO (result == 0)
  { c with status := setFlag st StatusFlags.NEGATIVE (result &&& 0x80 != 0) }

/-- CPU::binary_add: A + arg + C with the 6502 carry and overflow rules. -/
def CPU.binaryAdd (c : CPU) (arg : Nat) : CPU :=
  let carryBit := StatusFlags.CARRY &&& c.status
  let carryA := c.registerA + carryBit ≥ 256
  let carryIn := (c.registerA + carryBit) % 256
  let carryB := carryIn + arg ≥ 256
  let tmp := (carryIn + arg) % 256
  let st := setFlag c.status StatusFlags.CARRY (carryA || carryB)
  let st := setFlag st StatusFlags.OVERFLOW
      ((((c.registerA ^^^ tmp) &&& (arg ^^^ tmp)) &&& 0x80) != 0)
  { c with status := st, registerA := tmp }

/-- CPU::bcd_add: the decimal-mode addition.  The low nibble is corrected
when its sum exceeds 9; overflow is computed before the high correction;
the high correction adds 0x60 when the intermediate exceeds 0x90; carry is
set when the corrected intermediate exceeds the decimal literal 99. -/
def CPU.bcdAdd (c : CPU) (arg : Nat) : CPU :=
  let carryBit := StatusFlags.CARRY &&& c.status
  let a := c.registerA
  let v := arg
  let tmp0 := (a &&& 0x0F) + (v &&& 0x0F) + carryBit
  let tmp1 := if tmp0 > 0x09 then ((tmp0 + 0x06) &&& 0x0F) + 0x10 else tmp0
  let tmp2 := tmp1 + ((a &&& 0xF0) + (v &&& 0xF0)) % 0x10000
  let o := (((0xFFFF ^^^ (a ^^^ v)) &&& (a ^^^ tmp2)) &&& 0x80) != 0
  let st := setFlag c.status StatusFlags.OVERFLOW o
  let tmp3 := if tmp2 > 0x90 then tmp2 + 0x60 else tmp2
  let st := setFlag st StatusFlags.CARRY (tmp3 > 99)
  { c with status := st, registerA := tmp3 &&& 0xFF }

/-- CPU::bcd_sub: the decimal-mode subtraction. -/
def CPU.bcdSub (c : CPU) (arg : Nat) : CPU :=
  let carryBit : Nat := if hasFlag c.status StatusFlags.CARRY then 1 else 0
  let nCarryBit := (0xFFFF ^^^ carryBit) &&& 0x01
  let a := c.registerA
  let v := arg
  let lo0 := wsub16 (wsub16 (a &&& 0x0F) (v &&& 0x0F)) nCarryBit
  let lo := if lo0 &&& 0x10 == 0x10 then lo0 - 0x06 else lo0
  let hi0 := wsub16 (wsub16 (a >>> 4) (v >>> 4))
      (if lo &&& 0x10 == 0x10 then 1 else 0)
  let hi := if hi0 &&& 0x10 == 0x10 then hi0 - 0x06 else hi0
  let borrow := wsub16 (wsub16 a v) nCarryBit
  let st := setFlag c.status StatusFlags.CARRY ((borrow &&& 0x0F00) != 0)
  let st := setFlag st StatusFlags.OVERFLOW
      (((borrow ^^^ v) &&& 0x80 == 0x80) && ((a ^^^ v) &&& 0x80 == 0x80))
  { c with status := st, registerA := ((hi <<< 4) ||| (lo &&& 0xF)) &&& 0xFF }

/-- CPU::adc. -/
def CPU.adc (c : CPU) (mode : AddressingMode) : Except EmuErr CPU := do
  let (addr, c) ← c.getOperandAddress mode
  let (memValue, c) ← c.memRead addr
  let c := if c.enableDecimal && hasFlag c.status StatusFlags.DECIMAL_MODE
           then c.bcdAdd memValue else c.binaryAdd memValue
  .ok (c.updateZN c.registerA)

/-- CPU::sbc: decimal path via bcd_sub, binary path via binary_add of the
complemented operand. -/
def CPU.sbc (c : CPU) (mode : AddressingMode) : Except EmuErr CPU := do
  let (addr, c) ← c.getOperandAddress mode
  let (memValue, c) ← c.memRead addr
  let c := if c.enableDecimal && hasFlag c.status StatusFlags.DECIMAL_MODE
           then c.bcdSub memValue else c.binaryAdd (0xFF ^^^ (memValue % 256))
  .ok (c.updateZN c.registerA)

/-- CPU::and. -/
def CPU.and (c : CPU) (mode : AddressingMode) : Except EmuErr CPU := do
  let (addr, c) ← c.getOperandAddress mode
  let (v, c) ← c.memRead addr
  let c := { c with registerA := c.registerA &&& v }
  .ok (c.updateZN c.registerA)

/-- CPU::asl: accumulator form for mode None, memory form otherwise (the
memory form rereads the written cell for the flag update). -/
def CPU.asl (c : CPU) (mode : AddressingMode) : Except EmuErr CPU :=
  match mode with
  | .None =>
      let carry := c.registerA &&& 0x80 == 0x80
      let c := { c with registerA := (c.registerA <<< 1) % 256 }
      let c := c.updateZN c.registerA
      .ok { c with status := setFlag c.status StatusFlags.CARRY carry }
  | _ => do
      let (addr, c) ← c.getOperandAddress mode
      let (value, c) ← c.memRead addr
      let carry := value &&& 0x80 == 0x80
      let c ← c.memWrite addr ((value <<< 1) % 256)
      let (reread, c) ← c.memRead addr
      let c := c.updateZN reread
      .ok { c with status := setFlag c.status StatusFlags.CARRY carry }

/-- CPU::lsr: accumulator form for mode None, memory form otherwise (the
memory form rereads the written cell for the flag update). -/
def CPU.lsr (c : CPU) (mode : AddressingMode) : Except EmuErr CPU :=
  match mode with
  | .None =>
      let carry := c.registerA &&& 1 == 1
      let c := { c with registerA := c.registerA >>> 1 }
      let c := c.updateZN c.registerA
      .ok { c with status := setFlag c.status StatusFlags.CARRY carry }
  | _ => do
      let (addr, c) ← c.getOperandAddress mode
      let (value, c) ← c.memRead addr
      let carry := value &&& 1 == 1
      let c ← c.memWrite addr (value >>> 1)
      let (reread, c) ← c.memRead addr
      let c := c.updateZN reread
      .ok { c with status := setFlag c.status StatusFlags.CARRY carry }

/-- CPU::branch: when the condition holds, read the operand byte at the
program counter, sign extend it, and set the program counter to the operand
position plus one plus the offset (all mod 2^16). -/
def CPU.branch (c : CPU) (condition : Bool) : Except EmuErr CPU :=
  if condition then do
    let (jump, c) ← c.memRead c.programCounter
    let jumpAddr := (c.programCounter + 1 + signExt8 (jump % 256)) % 0x10000
    .ok { c with programCounter := jumpAddr }
  else .ok c

/-- CPU::bit. -/
def CPU.bit (c : CPU) (mode : AddressingMode) : Except EmuErr CPU := do
  let (addr, c) ← c.getOperandAddress mode
  let (value, c) ← c.memRead addr
  let b6 := value &&& 0x40 == 0x40
  let b7 := value &&& 0x80 == 0x80
  let zero := value &&& c.registerA == 0
  let st := setFlag c.status StatusFlags.ZERO zero
  let st := setFlag st StatusFlags.OVERFLOW b6
  .ok { c with status := setFlag st StatusFlags.NEGATIVE b7 }

/-- CPU::compare, shared by CMP, CPX, CPY. -/
def CPU.compare (c : CPU) (register : Nat) (mode : AddressingMode) :
    Except EmuErr CPU := do
  let (addr, c) ← c.getOperandAddress mode
  let (value, c) ← c.memRead addr
  let result := wsub8 register value
  let st := setFlag c.status StatusFlags.CARRY (register ≥ value)
  let st := setFlag st StatusFlags.ZERO (value == register)
  .ok { c with status := setFlag st StatusFlags.NEGATIVE (result &&& 0x80 == 0x80) }

/-- CPU::cmp. -/
def CPU.cmp (c : CPU) (mode : AddressingMode) : Except EmuErr CPU :=
  c.compare c.registerA mode

/-- CPU::cpx. -/
def CPU.cpx (c : CPU) (mode : AddressingMode) : Except EmuErr CPU :=
  c.compare c.registerX mode

/-- CPU::cpy. -/
def CPU.cpy (c : CPU) (mode : AddressingMode) : Except EmuErr CPU :=
  c.compare c.registerY mode

/-- CPU::dec. -/
def CPU.dec (c : CPU) (mode : AddressingMode) : Except EmuErr CPU := do
  let (addr, c) ← c.getOperandAddress mode
  let (v, c) ← c.memRead addr
  let value := wsub8 v 1
  let c ← c.memWrite addr value
  .ok (c.updateZN value)

/-- CPU::inc. -/
def CPU.inc (c : CPU) (mode : AddressingMode) : Except EmuErr CPU := do
  let (addr, c) ← c.getOperandAddress mode
  let (v, c) ← c.memRead addr
  let value := (v + 1) % 256
  let c ← c.memWrite addr value
  .ok (c.updateZN value)

/-- CPU::dex. -/
def CPU.dex (c : CPU) : CPU :=
  let c := { c with registerX := wsub8 c.registerX 1 }
  c.updateZN c.registerX

/-- CPU::dey. -/
def CPU.dey (c : CPU) : CPU :=
  let c := { c with registerY := wsub8 c.registerY 1 }
  c.updateZN c.registerY

/-- CPU::inx. -/
def CPU.inx (c : CPU) : CPU :=
  let c := { c with registerX := (c.registerX + 1) % 256 }
  c.updateZN c.registerX

/-- CPU::iny. -/
def CPU.iny (c : CPU) : CPU :=
  let c := { c with registerY := (c.registerY + 1) % 256 }
  c.updateZN c.registerY

/-- CPU::eor. -/
def CPU.eor (c : CPU) (mode : AddressingMode) : Except EmuErr CPU := do
  let (addr, c) ← c.getOperandAddress mode
  let (value, c) ← c.memRead addr
  let c := { c with registerA := c.registerA ^^^ value }
  .ok (c.updateZN c.registerA)

/-- CPU::ora. -/
def CPU.ora (c : CPU) (mode : AddressingMode) : Except EmuErr CPU := do
  let (addr, c) ← c.getOperandAddress mode
  let (value, c) ← c.memRead addr
  let c := { c with registerA := c.registerA ||| value }
  .ok (c.updateZN c.registerA)

/-- CPU::lda. -/
def CPU.lda (c : CPU) (mode : AddressingMode) : Except EmuErr CPU := do
  let (addr, c) ← c.getOperandAddress mode
  let (value, c) ← c.memRead addr
  let c := { c with registerA := value }
  .ok (c.updateZN c.registerA)

/-- CPU::ldx. -/
def CPU.ldx (c : CPU) (mode : AddressingMode) : Except EmuErr CPU := do
  let (addr, c) ← c.getOperandAddress mode
  let (value, c) ← c.memRead addr
  let c := { c with registerX := value }
  .ok (c.updateZN c.registerX)

/-- CPU::ldy. -/
def CPU.ldy (c : CPU) (mode : AddressingMode) : Except EmuErr CPU := do
  let (addr, c) ← c.getOperandAddress mode
  let (value, c) ← c.memRead addr
  let c := { c with registerY := value }
  .ok (c.updateZN c.registerY)

/-- CPU::rol: fold the old carry into bit 0. -/
def CPU.rol (c : CPU) (mode : AddressingMode) : Except EmuErr CPU :=
  let oldCarry := hasFlag c.status StatusFlags.CARRY
  match mode with
  | .None =>
      let carry := c.registerA &&& 0x80 == 0x80
      let a := (c.registerA <<< 1) % 256
      let a := if oldCarry then a ||| 1 else a
      let c := { c with registerA := a }
      let c := c.updateZN c.registerA
      .ok { c with status := setFlag c.status StatusFlags.CARRY carry }
  | _ => do
      let (addr, c) ← c.getOperandAddress mode
      let (value, c) ← c.memRead addr
      let carry := value &&& 0x80 == 0x80
      let value := (value <<< 1) % 256
      let value := if oldCarry then value ||| 1 else value
      let c ← c.memWrite addr value
      let c := c.updateZN value
      .ok { c with status := setFlag c.status StatusFlags.CARRY carry }

/-- CPU::ror: fold the old carry into bit 7. -/
def CPU.ror (c : CPU) (mode : AddressingMode) : Except EmuErr CPU :=
  let oldCarry := hasFlag c.status StatusFlags.CARRY
  match mode with
  | .None =>
      let carry := c.registerA &&& 1 == 1
      let a := c.registerA >>> 1
      let a := if oldCarry then a ||| 0x80 else a
      let c := { c with registerA := a }
      let c := c.updateZN c.registerA
      .ok { c with status := setFlag c.status StatusFlags.CARRY carry }
  | _ => do
      let (addr, c) ← c.getOperandAddress mode
      let (value, c) ← c.memRead addr
      let carry := value &&& 1 == 1
      let value := value >>> 1
      let value := if oldCarry then value ||| 0x80 else value
      let c ← c.memWrite addr value
      let c := c.updateZN value
      .ok { c with status := setFlag c.status StatusFlags.CARRY carry }

/-- CPU::sta. -/
def CPU.sta (c : CPU) (mode : AddressingMode) : Except EmuErr CPU := do
  let (addr, c) ← c.getOperandAddress mode
  c.memWrite addr c.registerA

/-- CPU::stx. -/
def CPU.stx (c : CPU) (mode : AddressingMode) : Except EmuErr CPU := do
  let (addr, c) ← c.getOperandAddress mode
  c.memWrite addr c.registerX

/-- CPU::sty. -/
def CPU.sty (c : CPU) (mode : AddressingMode) : Except EmuErr CPU := do
  let (addr, c) ← c.getOperandAddress mode
  c.memWrite addr c.registerY

/-- CPU::tax. -/
def CPU.tax (c : CPU) : CPU :=
  let c := { c with registerX := c.registerA }
  c.updateZN c.registerX

/-- CPU::tay (flags updated from register_a as in the source). -/
def CPU.tay (c : CPU) : CPU :=
  let c := { c with registerY := c.registerA }
  c.updateZN c.registerA

/-- CPU::tsx. -/
def CPU.tsx (c : CPU) : CPU :=
  let c := { c with registerX := c.stackPointer }
  c.updateZN c.registerX

/-- CPU::txa. -/
def CPU.txa (c : CPU) : CPU :=
  let c := { c with registerA := c.registerX }
  c.updateZN c.registerA

/-- CPU::txs: no flag update. -/
def CPU.txs (c : CPU) : CPU := { c with stackPointer := c.registerX }

/-- CPU::tya. -/
def CPU.tya (c : CPU) : CPU :=
  let c := { c with registerA := c.registerY }
  c.updateZN c.registerA

/-- CPU::stack_push: write at 0x0100 + S, then decrement S with wrap. -/
def CPU.stackPush (c : CPU) (data : Nat) : Except EmuErr CPU := do
  let c ← c.memWrite (0x0100 + c.stackPointer) data
  .ok { c with stackPointer := wsub8 c.stackPointer 1 }

/-- CPU::stack_push_u16: push the high byte then the low byte. -/
def CPU.stackPushU16 (c : CPU) (data : Nat) : Except EmuErr CPU := do
  let lo := data % 256
  let hi := (data / 256) % 256
  let c ← c.stackPush hi
  c.stackPush lo

/-- CPU::stack_pop: increment S with wrap, then read at 0x0100 + S. -/
def CPU.stackPop (c : CPU) : Except EmuErr (Nat × CPU) :=
  let c := { c with stackPointer := (c.stackPointer + 1) % 256 }
  c.memRead (0x0100 + c.stackPointer)

/-- CPU::stack_pop_u16: pop the low byte then the high byte. -/
def CPU.stackPopU16 (c : CPU) : Except EmuErr (Nat × CPU) := do
  let (lo, c) ← c.stackPop
  let (hi, c) ← c.stackPop
  .ok ((hi <<< 8) ||| lo, c)

/-- CPU::jsr: push the address of the last byte of the instruction
(pc + 2 - 1), then jump to the absolute operand. -/
def CPU.jsr (c : CPU) : Except EmuErr CPU := do
  let c ← c.stackPushU16 ((c.programCounter + 1) % 0x10000)
  let (target, c) ← c.memReadU16 c.programCounter
  .ok { c with programCounter := target }

/-- CPU::rts: pop a 16-bit value and add one. -/
def CPU.rts (c : CPU) : Except EmuErr CPU := do
  let (v, c) ← c.stackPopU16
  .ok { c with programCounter := (v + 1) % 0x10000 }

/-- CPU::rti: pop the status (force BREAK clear, BREAK2 set), then pop the
program counter. -/
def CPU.rti (c : CPU) : Except EmuErr CPU := do
  let (p, c) ← c.stackPop
  let st := ((p % 256) &&& (0xFF ^^^ StatusFlags.BREAK)) ||| StatusFlags.BREAK2
  let c := { c with status := st }
  let (pc, c) ← c.stackPopU16
  .ok { c with programCounter := pc }

/-- CPU::php: push the status with BREAK and BREAK2 inserted. -/
def CPU.php (c : CPU) : Except EmuErr CPU :=
  c.stackPush ((c.status ||| StatusFlags.BREAK) ||| StatusFlags.BREAK2)

/-- CPU::pla. -/
def CPU.pla (c : CPU) : Except EmuErr CPU := do
  let (v, c) ← c.stackPop
  let c := { c with registerA := v }
  .ok (c.updateZN c.registerA)

/-- CPU::plp: pop the status, force BREAK clear and BREAK2 set. -/
def CPU.plp (c : CPU) : Except EmuErr CPU := do
  let (p, c) ← c.stackPop
  let st := ((p % 256) &&& (0xFF ^^^ StatusFlags.BREAK)) ||| StatusFlags.BREAK2
  .ok { c with status := st }

/-- Result of one iteration of the run loop body: either the loop continues
with the new state, or the BRK arm returned out of run_with_callback. -/
inductive StepOut where
  | stepped (c : CPU)
  | brkExit (c : CPU)

/-- The dispatch match of run_with_callback in src/cpu.rs, over the fetched
opcode byte (the program counter has already been advanced past the opcode
byte), rendered as a chain of byte-set tests, one per match arm and in the
order of the source arms.  The BRK arm (0x00) returns from the loop; the
HLT arms panic.  The arms for 0x8B, 0x9B, 0x9C and 0x9E exist in the
source but are unreachable, because the opcode map lookup panics on them
first. -/
def CPU.execOpcode (c : CPU) (code : Nat) (mode : AddressingMode) :
    Except EmuErr StepOut :=
  if code = 0x69 ∨ code = 0x65 ∨ code = 0x75 ∨ code = 0x6D ∨ code = 0x7D ∨ code = 0x79 ∨ code = 0x61 ∨ code = 0x71 then
    (c.adc mode).map StepOut.stepped
  else if code = 0x29 ∨ code = 0x25 ∨ code = 0x35 ∨ code = 0x2D ∨ code = 0x3D ∨ code = 0x39 ∨ code = 0x21 ∨ code = 0x31 then
    (c.and mode).map StepOut.stepped
  else if code = 0x0A ∨ code = 0x06 ∨ code = 0x16 ∨ code = 0x0E ∨ code = 0x1E then
    (c.asl mode).map StepOut.stepped
  else if code = 0x90 then (c.branch (!hasFlag c.status StatusFlags.CARRY)).map StepOut.stepped
  else if code = 0xB0 then (c.branch (hasFlag c.status StatusFlags.CARRY)).map StepOut.stepped
  else if code = 0xF0 then (c.branch (hasFlag c.status StatusFlags.ZERO)).map StepOut.stepped
  else if code = 0x30 then (c.branch (hasFlag c.status StatusFlags.NEGATIVE)).map StepOut.stepped
  else if code = 0xD0 then (c.branch (!hasFlag c.status StatusFlags.ZERO)).map StepOut.stepped
  else if code = 0x10 then (c.branch (!hasFlag c.status StatusFlags.NEGATIVE)).map StepOut.stepped
  else if code = 0x50 then (c.branch (!hasFlag c.status StatusFlags.OVERFLOW)).map StepOut.stepped
  else if code = 0x70 then (c.branch (hasFlag c.status StatusFlags.OVERFLOW)).map StepOut.stepped
  else if code = 0x24 ∨ code = 0x2C then (c.bit mode).map StepOut.stepped
  else if code = 0x18 then .ok (.stepped { c with status := setFlag c.status StatusFlags.CARRY false })
  else if code = 0xD8 then .ok (.stepped { c with status := setFlag c.status StatusFlags.DECIMAL_MODE false })
  else if code = 0x58 then .ok (.stepped { c with status := setFlag c.status StatusFlags.INTERRUPT_DISABLE false })
  else if code = 0xB8 then .ok (.stepped { c with status := setFlag c.status StatusFlags.OVERFLOW false })
  else if code = 0xC9 ∨ code = 0xC5 ∨ code = 0xD5 ∨ code = 0xCD ∨ code = 0xDD ∨ code = 0xD9 ∨ code = 0xC1 ∨ code = 0xD1 then
    (c.cmp mode).map StepOut.stepped
  else if code = 0xE0 ∨ code = 0xE4 ∨ code = 0xEC then (c.cpx mode).map StepOut.stepped
  else if code = 0xC0 ∨ code = 0xC4 ∨ code = 0xCC then (c.cpy mode).map StepOut.stepped
  else if code = 0xC6 ∨ code = 0xD6 ∨ code = 0xCE ∨ code = 0xDE then (c.dec mode).map StepOut.stepped
  else if code = 0xCA then .ok (.stepped c.dex)
  else if code = 0x88 then .ok (.stepped c.dey)
  else if code = 0x49 ∨ code = 0x45 ∨ code = 0x55 ∨ code = 0x4D ∨ code = 0x5D ∨ code = 0x59 ∨ code = 0x41 ∨ code = 0x51 then
    (c.eor mode).map StepOut.stepped
  else if code = 0x6C then do
    let (memAddr, c) ← c.memReadU16 c.programCounter
    let (indirectRef, c) ←
      if memAddr &&& 0x00FF == 0x00FF then do
        let (lo, c) ← c.memRead memAddr
        let (hi, c) ← c.memRead (memAddr &&& 0xFF00)
        pure ((hi <<< 8) ||| lo, c)
      else c.memReadU16 memAddr
    .ok (.stepped { c with programCounter := indirectRef })
  else if code = 0x4C then do
    let (a, c) ← c.memReadU16 c.programCounter
    .ok (.stepped { c with programCounter := a })
  else if code = 0x20 then (c.jsr).map StepOut.stepped
  else if code = 0x60 then (c.rts).map StepOut.stepped
  else if code = 0x40 then (c.rti).map StepOut.stepped
  else if code = 0xE6 ∨ code = 0xF6 ∨ code = 0xEE ∨ code = 0xFE then (c.inc mode).map StepOut.stepped
  else if code = 0xE8 then .ok (.stepped c.inx)
  else if code = 0xC8 then .ok (.stepped c.iny)
  else if code = 0xA9 ∨ code = 0xA5 ∨ code = 0xB5 ∨ code = 0xAD ∨ code = 0xBD ∨ code = 0xB9 ∨ code = 0xA1 ∨ code = 0xB1 then
    (c.lda mode).map StepOut.stepped
  else if code = 0xA2 ∨ code = 0xA6 ∨ code = 0xB6 ∨ code = 0xAE ∨ code = 0xBE then (c.ldx mode).map StepOut.stepped
  else if code = 0xA0 ∨ code = 0xA4 ∨ code = 0xB4 ∨ code = 0xAC ∨ code = 0xBC then (c.ldy mode).map StepOut.stepped
  else if code = 0x4A ∨ code = 0x46 ∨ code = 0x56 ∨ code = 0x4E ∨ code = 0x5E then (c.lsr mode).map StepOut.stepped
  else if code = 0xEA then .ok (.stepped c)
  else if code = 0x09 ∨ code = 0x05 ∨ code = 0x15 ∨ code = 0x0D ∨ code = 0x1D ∨ code = 0x19 ∨ code = 0x01 ∨ code = 0x11 then
    (c.ora mode).map StepOut.stepped
  else if code = 0x48 then (c.stackPush c.registerA).map StepOut.stepped
  else if code = 0x08 then (c.php).map StepOut.stepped
  else if code = 0x68 then (c.pla).map StepOut.stepped
  else if code = 0x28 then (c.plp).map StepOut.stepped
  else if code = 0x2A ∨ code = 0x26 ∨ code = 0x36 ∨ code = 0x2E ∨ code = 0x3E then (c.rol mode).map StepOut.stepped
  else if code = 0x6A ∨ code = 0x66 ∨ code = 0x76 ∨ code = 0x6E ∨ code = 0x7E then (c.ror mode).map StepOut.stepped
  else if code = 0xE9 ∨ code = 0xE5 ∨ code = 0xF5 ∨ code = 0xED ∨ code = 0xFD ∨ code = 0xF9 ∨ code = 0xE1 ∨ code = 0xF1 then
    (c.sbc mode).map StepOut.stepped
  else if code = 0x85 ∨ code = 0x95 ∨ code = 0x8D ∨ code = 0x9D ∨ code = 0x99 ∨ code = 0x81 ∨ code = 0x91 then
    (c.sta mode).map StepOut.stepped
  else if code = 0x84 ∨ code = 0x94 ∨ code = 0x8C then (c.sty mode).map StepOut.stepped
  else if code = 0x86 ∨ code = 0x96 ∨ code = 0x8E then (c.stx mode).map StepOut.stepped
  else if code = 0x38 then .ok (.stepped { c with status := setFlag c.status StatusFlags.CARRY true })
  else if code = 0xF8 then .ok (.stepped { c with status := setFlag c.status StatusFlags.DECIMAL_MODE true })
  else if code = 0x78 then .ok (.stepped { c with status := setFlag c.status StatusFlags.INTERRUPT_DISABLE true })
  else if code = 0xAA then .ok (.stepped c.tax)
  else if code = 0xA8 then .ok (.stepped c.tay)
  else if code = 0xBA then .ok (.stepped c.tsx)
  else if code = 0x8A then .ok (.stepped c.txa)
  else if code = 0x9A then .ok (.stepped c.txs)
  else if code = 0x98 then .ok (.stepped c.tya)
  else if code = 0x1A ∨ code = 0x3A ∨ code = 0x5A ∨ code = 0x7A ∨ code = 0xDA ∨ code = 0xFA then .ok (.stepped c)
  else if code = 0x80 ∨ code = 0x82 ∨ code = 0x89 ∨ code = 0xC2 ∨ code = 0xE2 then .ok (.stepped c)
  else if code = 0x0C ∨ code = 0x1C ∨ code = 0x3C ∨ code = 0x5C ∨ code = 0x7C ∨ code = 0xDC ∨ code = 0xFC ∨ code = 0x04 ∨ code = 0x44 ∨ code = 0x64 ∨ code = 0x14 ∨ code = 0x34 ∨ code = 0x54 ∨ code = 0x74 ∨ code = 0xD4 ∨ code = 0xF4 then
    .ok (.stepped c)
  else if code = 0xA3 ∨ code = 0xA7 ∨ code = 0xAF ∨ code = 0xB3 ∨ code = 0xB7 ∨ code = 0xBF then do
    let c ← c.lda mode
    .ok (.stepped c.tax)
  else if code = 0x83 ∨ code = 0x87 ∨ code = 0x8F ∨ code = 0x97 then do
    let value := c.registerA &&& c.registerX
    let (addr, c) ← c.getOperandAddress mode
    let c ← c.memWrite addr value
    .ok (.stepped c)
  else if code = 0xEB then (c.sbc mode).map StepOut.stepped
  else if code = 0xC3 ∨ code = 0xC7 ∨ code = 0xCF ∨ code = 0xD3 ∨ code = 0xD7 ∨ code = 0xDB ∨ code = 0xDF then do
    let c ← c.dec mode
    let c ← c.cmp mode
    .ok (.stepped c)
  else if code = 0xE3 ∨ code = 0xE7 ∨ code = 0xEF ∨ code = 0xF3 ∨ code = 0xF7 ∨ code = 0xFB ∨ code = 0xFF then do
    let c ← c.inc mode
    let c ← c.sbc mode
    .ok (.stepped c)
  else if code = 0x03 ∨ code = 0x07 ∨ code = 0x0F ∨ code = 0x13 ∨ code = 0x17 ∨ code = 0x1B ∨ code = 0x1F then do
    let c ← c.asl mode
    let c ← c.ora mode
    .ok (.stepped c)
  else if code = 0x23 ∨ code = 0x27 ∨ code = 0x2F ∨ code = 0x33 ∨ code = 0x37 ∨ code = 0x3B ∨ code = 0x3F then do
    let c ← c.rol mode
    let c ← c.and mode
    .ok (.stepped c)
  else if code = 0x43 ∨ code = 0x47 ∨ code = 0x4F ∨ code = 0x53 ∨ code = 0x57 ∨ code = 0x5B ∨ code = 0x5F then do
    let c ← c.lsr mode
    let c ← c.eor mode
    .ok (.stepped c)
  else if code = 0x63 ∨ code = 0x67 ∨ code = 0x6F ∨ code = 0x73 ∨ code = 0x77 ∨ code = 0x7B ∨ code = 0x7F then do
    let c ← c.ror mode
    let c ← c.adc mode
    .ok (.stepped c)
  else if code = 0x4B then do
    let c ← c.and mode
    let c ← c.lsr AddressingMode.None
    .ok (.stepped c)
  else if code = 0x0B ∨ code = 0x2B then do
    let c ← c.and mode
    let st := setFlag c.status StatusFlags.CARRY (hasFlag c.status StatusFlags.NEGATIVE)
    .ok (.stepped { c with status := st })
  else if code = 0x6B then do
    let c ← c.and mode
    let c ← c.ror AddressingMode.None
    let five := c.registerA &&& 0x20 == 0x20
    let six := c.registerA &&& 0x40 == 0x40
    let st := setFlag c.status StatusFlags.OVERFLOW (five != six)
    .ok (.stepped { c with status := setFlag st StatusFlags.CARRY six })
  else if code = 0xCB then do
    let (addr, c) ← c.getOperandAddress mode
    let (data, c) ← c.memRead addr
    let bitwiseAnd := c.registerA &&& c.registerX
    let c := if data ≤ bitwiseAnd
             then { c with status := c.status ||| StatusFlags.CARRY } else c
    let result := wsub8 bitwiseAnd data
    let c := c.updateZN result
    .ok (.stepped { c with registerX := result })
  else if code = 0xAB then do
    let c ← c.and mode
    .ok (.stepped { c with registerX := c.registerA })
  else if code = 0x9F ∨ code = 0x93 then do
    let (addr, c) ← c.getOperandAddress mode
    let value := (c.registerA &&& c.registerX) &&& ((addr >>> 8) % 256)
    let c ← c.memWrite addr value
    .ok (.stepped c)
  else if code = 0x9E then do
    let (addr, c) ← c.getOperandAddress mode
    let value := c.registerX &&& (((addr >>> 8) % 256 + 1) % 256)
    let c ← c.memWrite addr value
    .ok (.stepped c)
  else if code = 0x9C then do
    let (addr, c) ← c.getOperandAddress mode
    let value := c.registerY &&& (((addr >>> 8) % 256 + 1) % 256)
    let c ← c.memWrite addr value
    .ok (.stepped c)
  else if code = 0x9B then do
    let (addr, c) ← c.getOperandAddress mode
    let c := { c with stackPointer := c.registerA &&& c.registerX }
    let value := c.stackPointer &&& (((addr >>> 8) % 256 + 1) % 256)
    let c ← c.memWrite addr value
    .ok (.stepped c)
  else if code = 0x02 ∨ code = 0x12 ∨ code = 0x22 ∨ code = 0x32 ∨ code = 0x42 ∨ code = 0x52 ∨ code = 0x62 ∨ code = 0x72 ∨ code = 0x92 ∨ code = 0xB2 ∨ code = 0xD2 ∨ code = 0xF2 then
    .error .illegalHalt
  else if code = 0xBB then do
    let (addr, c) ← c.getOperandAddress mode
    let (d, c) ← c.memRead addr
    let data := d &&& c.stackPointer
    let c := { c with registerA := data, registerX := data, stackPointer := data }
    .ok (.stepped (c.updateZN data))
  else if code = 0x8B then do
    let c := { c with registerA := c.registerX }
    let (addr, c) ← c.getOperandAddress mode
    let (v, c) ← c.memRead addr
    .ok (.stepped { c with registerA := c.registerA &&& v })
  else if code = 0x00 then .ok (.brkExit c)
  else .error (.unknownOpcode code)

/-- One iteration of the body of run_with_callback (after the callback, in
the non-paused case): fetch the opcode byte at the program counter, advance
the program counter, look the byte up in the opcode map (panicking when it
is absent), dispatch, and, unless the dispatched routine moved the program
counter or the loop returned, advance the program counter by the table
length minus one. -/
def CPU.step (c : CPU) : Except EmuErr StepOut := do
  let (code, c) ← c.memRead c.programCounter
  let c := { c with programCounter := (c.programCounter + 1) % 0x10000 }
  let pcState := c.programCounter
  match opcodeTable code with
  | none => .error (.unknownOpcode code)
  | some op => do
    let out ← c.execOpcode code op.mode
    match out with
    | .brkExit c2 => .ok (.brkExit c2)
    | .stepped c2 =>
        if pcState == c2.programCounter then
          let pc2 := (c2.programCounter + (op.len - 1)) % 0x10000
          .ok (.stepped { c2 with programCounter := pc2 })
        else .ok (.stepped c2)

/-- The memory accesses of trace (src/trace.rs), in source order, with the
bus state threaded through them: the three instruction bytes at the program
counter, then the operand reads selected by the addressing mode of the
fetched opcode (effective addresses and the bytes stored there).  The
string assembly of trace is pure and is omitted; this function captures
exactly which bus reads trace performs and therefore the effect trace has
on the machine state and the failures it can raise. -/
def CPU.traceReads (c : CPU) : Except EmuErr Bus := do
  let b := c.bus
  let pc := c.programCounter
  let (i1, b) ← b.memRead pc
  let (i2, b) ← b.memRead ((pc + 1) % 0x10000)
  let (i3, b) ← b.memRead ((pc + 2) % 0x10000)
  match opcodeTable i1 with
  | none => .error (.unknownOpcode i1)
  | some op =>
    match op.mode with
    | .None =>
        match op.len with
        | 3 => do
            let (memAddr, b) ← b.memReadU16 ((pc + 1) % 0x10000)
            if i1 == 0x6C then
              if memAddr &&& 0x00FF == 0x00FF then do
                let (_, b) ← b.memRead memAddr
                let (_, b) ← b.memRead (memAddr &&& 0xFF00)
                .ok b
              else do
                let (_, b) ← b.memReadU16 memAddr
                .ok b
            else .ok b
        | _ => .ok b
    | .Implied => .ok b
    | .Immediate => do
        let (_, b) ← b.memRead ((pc + 1) % 0x10000)
        .ok b
    | .ZeroPage => do
        let (_, b) ← b.memRead i2
        .ok b
    | .ZeroPage_X => do
        let (_, b) ← b.memRead ((i2 + c.registerX) % 256)
        .ok b
    | .ZeroPage_Y => do
        let (_, b) ← b.memRead ((i2 + c.registerY) % 256)
        .ok b
    | .Indirect_X => do
        let a := (c.registerX + i2) % 256
        let (lo, b) ← b.memRead a
        let (hi, b) ← b.memRead ((a + 1) % 256)
        let target := (hi <<< 8) ||| lo
        let (_, b) ← b.memRead target
        .ok b
    | .Indirect_Y => do
        let (base, b) ← b.memReadU16 i2
        let a := (base + c.registerY) % 0x10000
        let (_, b) ← b.memRead a
        .ok b
    | .Indirect => do
        let a := (i3 <<< 8) ||| i2
        let (_, b) ← b.memReadU16 a
        .ok b
    | .Absolute => do
        let a := (i3 <<< 8) ||| i2
        let (_, b) ← b.memRead a
        .ok b
    | .Absolute_X => do
        let a := (((i3 <<< 8) ||| i2) + c.registerX) % 0x10000
        let (target, b) ← b.memReadU16 a
        let (_, b) ← b.memRead target
        .ok b
    | .Absolute_Y => do
        let a := (((i3 <<< 8) ||| i2) + c.registerY) % 0x10000
        let (target, b) ← b.memReadU16 a
        let (_, b) ← b.memRead target
        .ok b

/-
  Helper definitions shared by the claim theorems: concrete machines used as
  counterexamples and witnesses, projections of step results, and small
  arithmetic lemmas.
-/

/-- Projection of a run-loop iteration result: the continuing CPU state, when
the iteration succeeded and did not return. -/
def steppedState : Except EmuErr StepOut → Option CPU
  | .ok (.stepped c) => some c
  | _ => none

/-- A bus whose RAM holds the given program at address 0 and is otherwise
zero, with no PRG ROM and a fresh PPU. -/
def testBus (prog : List Nat) : Bus :=
  { cpuVram := fun i => (prog.get? i).getD 0
    cycles := 0
    prgRom := []
    ppu := PPU.new [] .horizontal
    allowRomWrites := false }

/-- A freshly constructed CPU over testBus. -/
def testCpu (prog : List Nat) : CPU := CPU.new (testBus prog)

/-- A bus whose RAM bytes are all 9, whose 32 KiB of PRG ROM bytes are all
7, and which permits ROM writes. -/
def romBus : Bus :=
  { cpuVram := fun _ => 9
    cycles := 0
    prgRom := List.replicate 0x8000 7
    ppu := PPU.new [] .horizontal
    allowRomWrites := true }

lemma get?_replicate (a : Nat) : ∀ (n i : Nat), i < n → (List.replicate n a).get? i = some a
  | n+1, 0, _ => rfl
  | n+1, i+1, h => by
      simpa [List.replicate] using get?_replicate a n i (by omega)

lemma romBus_read_rom (a : Nat) (h8 : 0x8000 ≤ a) (hf : a ≤ 0xFFFF) :
    romBus.memRead a = .ok (7, romBus) := by
  obtain ⟨l, hl, hlen, hget⟩ :
      ∃ l : List Nat, romBus.prgRom = l ∧ l.length = 0x8000 ∧ l.get? (a &&& 0x7FFF) = some 7 :=
    ⟨_, rfl, List.length_replicate _ _,
     get?_replicate 7 0x8000 (a &&& 0x7FFF) (by have := @Nat.and_le_right a 0x7FFF; omega)⟩
  rw [Bus.memRead, hl]
  rw [if_neg (by omega), if_neg (by omega), if_neg (by omega), if_pos (by omega)]
  simp only [hlen]
  rw [if_neg (by norm_num)]
  rw [hget]

lemma romBus_read_zero : romBus.memRead 0 = .ok (9, romBus) := rfl

lemma romBus_read_u16 (a : Nat) (h8 : 0x8000 ≤ a) (hf : a ≤ 0xFFFE) :
    romBus.memReadU16 a = .ok ((7 <<< 8) ||| 7, romBus) := by
  have h1 := romBus_read_rom a h8 (by omega)
  have hm : (a + 1) % 0x10000 = a + 1 := Nat.mod_eq_of_lt (by omega)
  have h2 := romBus_read_rom (a + 1) (by omega) (by omega)
  unfold Bus.memReadU16
  simp only [h1, hm, h2, Except.bind, Bind.bind]

/-- The bus after writing the low byte of 0xABCD to 0xFFFF on romBus. -/
def romBusW1 : Bus := { romBus with prgRom := romBus.prgRom.set (0xFFFF &&& 0x7FFF) (0xABCD % 256) }

/-- The bus after additionally writing the high byte of 0xABCD to 0x0000. -/
def romBusW2 : Bus :=
  { romBusW1 with cpuVram := fun i => if i = 0 &&& 0x7FF then (0xABCD / 256) % 256 else romBusW1.cpuVram i }

lemma romBus_write_hi : romBus.memWrite 0xFFFF (0xABCD % 256) = .ok romBusW1 := by
  rw [Bus.memWrite]
  rw [if_neg (by norm_num), if_neg (by norm_num), if_neg (by norm_num), if_neg (by norm_num),
      if_pos (by norm_num)]
  rw [if_pos (show romBus.allowRomWrites = true from rfl)]
  rw [if_pos (show (0xFFFF:Nat) &&& 0x7FFF < romBus.prgRom.length by rw [show romBus.prgRom = List.replicate 0x8000 7 from rfl, List.length_replicate]; decide)]
  rfl

lemma romBus_write_lo : romBusW1.memWrite 0 ((0xABCD / 256) % 256) = .ok romBusW2 := rfl

/-- The branch predicates of the eight conditional branch opcodes, exactly
as in the corresponding dispatch arms of run_with_callback. -/
def branchPredicate (code st : Nat) : Bool :=
  if code = 0x90 then !hasFlag st StatusFlags.CARRY
  else if code = 0xB0 then hasFlag st StatusFlags.CARRY
  else if code = 0xF0 then hasFlag st StatusFlags.ZERO
  else if code = 0x30 then hasFlag st StatusFlags.NEGATIVE
  else if code = 0xD0 then !hasFlag st StatusFlags.ZERO
  else if code = 0x10 then !hasFlag st StatusFlags.NEGATIVE
  else if code = 0x50 then !hasFlag st StatusFlags.OVERFLOW
  else hasFlag st StatusFlags.OVERFLOW

lemma opcodeTable_0x00 : opcodeTable 0x00 = some { len := 1, cycles := 7, mode := .None, undocumented := false } := rfl

lemma opcodeTable_0xEA : opcodeTable 0xEA = some { len := 1, cycles := 2, mode := .None, undocumented := false } := rfl

lemma opcodeTable_0x90 : opcodeTable 0x90 = some { len := 2, cycles := 2, mode := .None, undocumented := false } := rfl

lemma opcodeTable_0xB0 : opcodeTable 0xB0 = some { len := 2, cycles := 2, mode := .None, undocumented := false } := rfl

lemma opcodeTable_0xF0 : opcodeTable 0xF0 = some { len := 2, cycles := 2, mode := .None, undocumented := false } := rfl

lemma opcodeTable_0x30 : opcodeTable 0x30 = some { len := 2, cycles := 2, mode := .None, undocumented := false } := rfl

lemma opcodeTable_0xD0 : opcodeTable 0xD0 = some { len := 2, cycles := 2, mode := .None, undocumented := false } := rfl

lemma opcodeTable_0x10 : opcodeTable 0x10 = some { len := 2, cycles := 2, mode := .None, undocumented := false } := rfl

lemma opcodeTable_0x50 : opcodeTable 0x50 = some { len := 2, cycles := 2, mode := .None, undocumented := false } := rfl

lemma opcodeTable_0x70 : opcodeTable 0x70 = some { len := 2, cycles := 2, mode := .None, undocumented := false } := rfl

lemma execOpcode_0x00 (c : CPU) (m : AddressingMode) : CPU.execOpcode c 0x00 m = .ok (.brkExit c) := rfl

lemma execOpcode_0xEA (c : CPU) (m : AddressingMode) : CPU.execOpcode c 0xEA m = .ok (.stepped c) := rfl

lemma execOpcode_0x90 (c : CPU) (m : AddressingMode) : CPU.execOpcode c 0x90 m = (c.branch (!hasFlag c.status StatusFlags.CARRY)).map StepOut.stepped := rfl

lemma execOpcode_0xB0 (c : CPU) (m : AddressingMode) : CPU.execOpcode c 0xB0 m = (c.branch (hasFlag c.status StatusFlags.CARRY)).map StepOut.stepped := rfl

lemma execOpcode_0xF0 (c : CPU) (m : AddressingMode) : CPU.execOpcode c 0xF0 m = (c.branch (hasFlag c.status StatusFlags.ZERO)).map StepOut.stepped := rfl

lemma execOpcode_0x30 (c : CPU) (m : AddressingMode) : CPU.execOpcode c 0x30 m = (c.branch (hasFlag c.status StatusFlags.NEGATIVE)).map StepOut.stepped := rfl

lemma execOpcode_0xD0 (c : CPU) (m : AddressingMode) : CPU.execOpcode c 0xD0 m = (c.branch (!hasFlag c.status StatusFlags.ZERO)).map StepOut.stepped := rfl

lemma execOpcode_0x10 (c : CPU) (m : AddressingMode) : CPU.execOpcode c 0x10 m = (c.branch (!hasFlag c.status StatusFlags.NEGATIVE)).map StepOut.stepped := rfl

lemma execOpcode_0x50 (c : CPU) (m : AddressingMode) : CPU.execOpcode c 0x50 m = (c.branch (!hasFlag c.status StatusFlags.OVERFLOW)).map StepOut.stepped := rfl

lemma execOpcode_0x70 (c : CPU) (m : AddressingMode) : CPU.execOpcode c 0x70 m = (c.branch (hasFlag c.status StatusFlags.OVERFLOW)).map StepOut.stepped := rfl

lemma and_seven (a : Nat) : a &&& 7 = a % 8 := by
  apply Nat.eq_of_testBit_eq
  intro i
  have h7 : (7:Nat) = 2^3 - 1 := by norm_num
  have h8 : (8:Nat) = 2^3 := by norm_num
  rw [Nat.testBit_and, h7, Nat.testBit_two_pow_sub_one, h8, Nat.testBit_mod_two_pow]
  exact Bool.and_comm _ _

lemma and_high_bit (a : Nat) (h1 : 0x2000 ≤ a) (h2 : a ≤ 0x3FFF) : a &&& 0x2000 = 0x2000 := by
  have hp : (2:Nat)^13 = 8192 := by norm_num
  have ht : a.testBit 13 = true := by
    rw [Nat.testBit_to_div_mod]
    have hd : a / 2^13 = 1 := by rw [hp]; omega
    rw [hd]
    decide
  have h20 : (0x2000:Nat) = 2^13 := by norm_num
  rw [h20, Nat.and_two_pow, ht]
  simp

lemma mask2007 (a : Nat) (h1 : 0x2000 ≤ a) (h2 : a ≤ 0x3FFF) :
    a &&& 0x2007 = 0x2000 + a % 8 := by
  have hsplit : a &&& 0x2007 = (a &&& 0x2000) ||| (a &&& 7) := by
    have h27 : (0x2007:Nat) = 0x2000 ||| 7 := by decide
    rw [h27]
    apply Nat.eq_of_testBit_eq
    intro i
    simp only [Nat.testBit_and, Nat.testBit_or, Bool.and_or_distrib_left]
  rw [hsplit, and_high_bit a h1 h2, and_seven]
  have hm : a % 8 < 8 := Nat.mod_lt _ (by norm_num)
  interval_cases h : a % 8 <;> decide

/-
  Counter preservation: no bus or PPU cycle counter changes during an
  instruction.  The run loop of run_with_callback performs memory reads and
  writes through the bus, and none of those paths touches Bus::cycles,
  PPU::cycles or PPU::scanline: only Bus::tick does, and the run loop never
  calls it.  The lemmas below thread that invariant through every
  instruction routine up to a full iteration of the loop body.
-/

/-- The cycle-related counters: bus cycles, PPU dot counter, PPU scanline. -/
def Bus.counters (b : Bus) : Nat × Nat × Nat := (b.cycles, b.ppu.cycles, b.ppu.scanline)

lemma bind_eq_ok {α β : Type} {x : Except EmuErr α} {f : α → Except EmuErr β} {r : β}
    (h : (Bind.bind x f : Except EmuErr β) = .ok r) : ∃ a, x = .ok a ∧ f a = .ok r := by
  cases x with
  | ok a => exact ⟨a, rfl, by simpa [Bind.bind, Except.bind] using h⟩
  | error e => simp [Bind.bind, Except.bind] at h

lemma readData_counters {p : PPU} {v : Nat} {p2 : PPU} (h : p.readData = .ok (v, p2)) :
    p2.cycles = p.cycles ∧ p2.scanline = p.scanline := by
  unfold PPU.readData at h
  dsimp only at h
  repeat' split at h
  all_goals first
    | (simp only [Except.ok.injEq, Prod.mk.injEq] at h; obtain ⟨h1, h2⟩ := h; subst h2; exact ⟨rfl, rfl⟩)
    | simp at h

lemma writeData_counters {p : PPU} {d : Nat} {p2 : PPU} (h : p.writeData d = .ok p2) :
    p2.cycles = p.cycles ∧ p2.scanline = p.scanline := by
  unfold PPU.writeData at h
  dsimp only at h
  split at h
  · rename_i p2i heq
    simp only [Except.ok.injEq] at h
    subst h
    repeat' split at heq
    all_goals first
      | (simp only [Except.ok.injEq] at heq; subst heq; exact ⟨rfl, rfl⟩)
      | simp at heq
  · simp at h

lemma writeToCtrl_counters (p : PPU) (d : Nat) :
    (p.writeToCtrl d).cycles = p.cycles ∧ (p.writeToCtrl d).scanline = p.scanline := by
  unfold PPU.writeToCtrl
  dsimp only
  split <;> exact ⟨rfl, rfl⟩

lemma writeToScroll_counters (p : PPU) (d : Nat) :
    (p.writeToScroll d).cycles = p.cycles ∧ (p.writeToScroll d).scanline = p.scanline := by
  unfold PPU.writeToScroll
  dsimp only
  split <;> exact ⟨rfl, rfl⟩

lemma ppuRegisterRead_counters {b : Bus} {a v : Nat} {b2 : Bus}
    (h : b.ppuRegisterRead a = .ok (v, b2)) : b2.counters = b.counters := by
  unfold Bus.ppuRegisterRead PPU.readStatus at h
  dsimp only at h
  split at h
  · simp at h
  · split at h
    · simp only [Except.ok.injEq, Prod.mk.injEq] at h
      obtain ⟨h1, h2⟩ := h
      subst h2
      rfl
    · split at h
      · simp only [Except.ok.injEq, Prod.mk.injEq] at h
        obtain ⟨h1, h2⟩ := h
        subst h2
        rfl
      · split at h
        · cases hrd : b.ppu.readData with
          | ok vp =>
              obtain ⟨v2, p2⟩ := vp
              rw [hrd] at h
              obtain ⟨hc, hs⟩ := readData_counters hrd
              simp only [Except.ok.injEq, Prod.mk.injEq] at h
              obtain ⟨h1, h2⟩ := h
              subst h2
              simp [Bus.counters, hc, hs]
          | error e => rw [hrd] at h; simp at h
        · simp only [Except.ok.injEq, Prod.mk.injEq] at h
          obtain ⟨h1, h2⟩ := h
          subst h2
          rfl

lemma ppuRegisterWrite_counters {b : Bus} {a d : Nat} {b2 : Bus}
    (h : b.ppuRegisterWrite a d = .ok b2) : b2.counters = b.counters := by
  unfold Bus.ppuRegisterWrite at h
  split at h
  · simp only [Except.ok.injEq] at h; subst h
    simp [Bus.counters, writeToCtrl_counters]
  · split at h
    · simp only [Except.ok.injEq] at h; subst h; rfl
    · split at h
      · simp only [Except.ok.injEq] at h; subst h; rfl
      · split at h
        · simp only [Except.ok.injEq] at h; subst h
          simp [Bus.counters, writeToScroll_counters]
        · split at h
          · simp only [Except.ok.injEq] at h; subst h; rfl
          · split at h
            · cases hwd : b.ppu.writeData d with
              | ok p2 =>
                  rw [hwd] at h
                  obtain ⟨hc, hs⟩ := writeData_counters hwd
                  simp only [Except.ok.injEq] at h
                  subst h
                  simp [Bus.counters, hc, hs]
              | error e => rw [hwd] at h; simp at h
            · simp only [Except.ok.injEq] at h; subst h; rfl

lemma memRead_counters {b : Bus} {a v : Nat} {b2 : Bus}
    (h : b.memRead a = .ok (v, b2)) : b2.counters = b.counters := by
  unfold Bus.memRead at h
  dsimp only at h
  repeat' split at h
  all_goals first
    | (exact ppuRegisterRead_counters h)
    | (simp only [Except.ok.injEq, Prod.mk.injEq] at h; obtain ⟨h1, h2⟩ := h; subst h2; rfl)
    | simp at h

lemma memWrite_counters {b : Bus} {a d : Nat} {b2 : Bus}
    (h : b.memWrite a d = .ok b2) : b2.counters = b.counters := by
  unfold Bus.memWrite at h
  repeat' split at h
  all_goals first
    | (exact ppuRegisterWrite_counters h)
    | (simp only [Except.ok.injEq] at h; subst h; rfl)
    | simp at h

lemma memReadU16_counters {b : Bus} {a v : Nat} {b2 : Bus}
    (h : b.memReadU16 a = .ok (v, b2)) : b2.counters = b.counters := by
  unfold Bus.memReadU16 at h
  obtain ⟨⟨lo, bm⟩, h1, h⟩ := bind_eq_ok h
  obtain ⟨⟨hi, bm2⟩, h2, h⟩ := bind_eq_ok h
  simp only [Except.ok.injEq, Prod.mk.injEq] at h
  obtain ⟨h3, h4⟩ := h
  subst h4
  rw [memRead_counters h2, memRead_counters h1]

lemma memWriteU16_counters {b : Bus} {a d : Nat} {b2 : Bus}
    (h : b.memWriteU16 a d = .ok b2) : b2.counters = b.counters := by
  unfold Bus.memWriteU16 at h
  dsimp only at h
  obtain ⟨bm, h1, h2⟩ := bind_eq_ok h
  rw [memWrite_counters h2, memWrite_counters h1]



lemma cpuMemRead_counters {c : CPU} {a v : Nat} {c2 : CPU}
    (h : c.memRead a = .ok (v, c2)) : c2.bus.counters = c.bus.counters := by
  unfold CPU.memRead at h
  split at h
  · rename_i vb hb
    simp only [Except.ok.injEq, Prod.mk.injEq] at h
    obtain ⟨h1, h2⟩ := h
    subst h2
    exact memRead_counters hb
  · simp at h

lemma cpuMemWrite_counters {c : CPU} {a d : Nat} {c2 : CPU}
    (h : c.memWrite a d = .ok c2) : c2.bus.counters = c.bus.counters := by
  unfold CPU.memWrite at h
  split at h
  · rename_i b hb
    simp only [Except.ok.injEq] at h
    subst h
    exact memWrite_counters hb
  · simp at h

lemma cpuMemReadU16_counters {c : CPU} {a v : Nat} {c2 : CPU}
    (h : c.memReadU16 a = .ok (v, c2)) : c2.bus.counters = c.bus.counters := by
  unfold CPU.memReadU16 at h
  split at h
  · rename_i vb hb
    simp only [Except.ok.injEq, Prod.mk.injEq] at h
    obtain ⟨h1, h2⟩ := h
    subst h2
    exact memReadU16_counters hb
  · simp at h

lemma cpuMemWriteU16_counters {c : CPU} {a d : Nat} {c2 : CPU}
    (h : c.memWriteU16 a d = .ok c2) : c2.bus.counters = c.bus.counters := by
  unfold CPU.memWriteU16 at h
  split at h
  · rename_i b hb
    simp only [Except.ok.injEq] at h
    subst h
    exact memWriteU16_counters hb
  · simp at h

lemma resolveAddress_counters {c : CPU} {mode : AddressingMode} {base v : Nat} {c2 : CPU}
    (h : c.resolveAddress mode base = .ok (v, c2)) : c2.bus.counters = c.bus.counters := by
  unfold CPU.resolveAddress at h
  cases mode <;> dsimp only at h
  case ZeroPage => exact cpuMemRead_counters h
  case Absolute => exact cpuMemReadU16_counters h
  case ZeroPage_X =>
    obtain ⟨⟨p1, cm⟩, h1, h⟩ := bind_eq_ok h
    simp only [Except.ok.injEq, Prod.mk.injEq] at h
    obtain ⟨h2, h3⟩ := h
    subst h3
    exact cpuMemRead_counters h1
  case ZeroPage_Y =>
    obtain ⟨⟨p1, cm⟩, h1, h⟩ := bind_eq_ok h
    simp only [Except.ok.injEq, Prod.mk.injEq] at h
    obtain ⟨h2, h3⟩ := h
    subst h3
    exact cpuMemRead_counters h1
  case Absolute_X =>
    obtain ⟨⟨p1, cm⟩, h1, h⟩ := bind_eq_ok h
    simp only [Except.ok.injEq, Prod.mk.injEq] at h
    obtain ⟨h2, h3⟩ := h
    subst h3
    exact cpuMemReadU16_counters h1
  case Absolute_Y =>
    obtain ⟨⟨p1, cm⟩, h1, h⟩ := bind_eq_ok h
    simp only [Except.ok.injEq, Prod.mk.injEq] at h
    obtain ⟨h2, h3⟩ := h
    subst h3
    exact cpuMemReadU16_counters h1
  case Indirect =>
    obtain ⟨⟨p1, cm⟩, h1, h⟩ := bind_eq_ok h
    exact (cpuMemReadU16_counters h).trans (cpuMemReadU16_counters h1)
  case Indirect_X =>
    obtain ⟨⟨p1, cm⟩, h1, h⟩ := bind_eq_ok h
    obtain ⟨⟨p2, cm2⟩, h2, h⟩ := bind_eq_ok h
    obtain ⟨⟨p3, cm3⟩, h3, h⟩ := bind_eq_ok h
    simp only [Except.ok.injEq, Prod.mk.injEq] at h
    obtain ⟨h4, h5⟩ := h
    subst h5
    exact ((cpuMemRead_counters h3).trans (cpuMemRead_counters h2)).trans (cpuMemRead_counters h1)
  case Indirect_Y =>
    obtain ⟨⟨p1, cm⟩, h1, h⟩ := bind_eq_ok h
    obtain ⟨⟨p2, cm2⟩, h2, h⟩ := bind_eq_ok h
    obtain ⟨⟨p3, cm3⟩, h3, h⟩ := bind_eq_ok h
    simp only [Except.ok.injEq, Prod.mk.injEq] at h
    obtain ⟨h4, h5⟩ := h
    subst h5
    exact ((cpuMemRead_counters h3).trans (cpuMemRead_counters h2)).trans (cpuMemRead_counters h1)
  all_goals simp at h

lemma getOperandAddress_counters {c : CPU} {mode : AddressingMode} {v : Nat} {c2 : CPU}
    (h : c.getOperandAddress mode = .ok (v, c2)) : c2.bus.counters = c.bus.counters := by
  unfold CPU.getOperandAddress at h
  cases mode <;> dsimp only at h
  case Immediate =>
    simp only [Except.ok.injEq, Prod.mk.injEq] at h
    obtain ⟨h1, h2⟩ := h
    subst h2
    rfl
  all_goals exact resolveAddress_counters h



lemma adc_counters {c : CPU} {mode : AddressingMode} {c2 : CPU}
    (h : c.adc mode = .ok c2) : c2.bus.counters = c.bus.counters := by
  unfold CPU.adc at h
  obtain ⟨⟨a1, cm⟩, h1, h⟩ := bind_eq_ok h
  obtain ⟨⟨v1, cm2⟩, h2, h⟩ := bind_eq_ok h
  have hc := (cpuMemRead_counters h2).trans (getOperandAddress_counters h1)
  simp only [Except.ok.injEq] at h
  subst h
  split <;> exact hc

lemma sbc_counters {c : CPU} {mode : AddressingMode} {c2 : CPU}
    (h : c.sbc mode = .ok c2) : c2.bus.counters = c.bus.counters := by
  unfold CPU.sbc at h
  obtain ⟨⟨a1, cm⟩, h1, h⟩ := bind_eq_ok h
  obtain ⟨⟨v1, cm2⟩, h2, h⟩ := bind_eq_ok h
  have hc := (cpuMemRead_counters h2).trans (getOperandAddress_counters h1)
  simp only [Except.ok.injEq] at h
  subst h
  split <;> exact hc

lemma and_counters {c : CPU} {mode : AddressingMode} {c2 : CPU}
    (h : c.and mode = .ok c2) : c2.bus.counters = c.bus.counters := by
  unfold CPU.and at h
  obtain ⟨⟨a1, cm⟩, h1, h⟩ := bind_eq_ok h
  obtain ⟨⟨v1, cm2⟩, h2, h⟩ := bind_eq_ok h
  have hc := (cpuMemRead_counters h2).trans (getOperandAddress_counters h1)
  simp only [Except.ok.injEq] at h
  subst h
  exact hc

lemma eor_counters {c : CPU} {mode : AddressingMode} {c2 : CPU}
    (h : c.eor mode = .ok c2) : c2.bus.counters = c.bus.counters := by
  unfold CPU.eor at h
  obtain ⟨⟨a1, cm⟩, h1, h⟩ := bind_eq_ok h
  obtain ⟨⟨v1, cm2⟩, h2, h⟩ := bind_eq_ok h
  have hc := (cpuMemRead_counters h2).trans (getOperandAddress_counters h1)
  simp only [Except.ok.injEq] at h
  subst h
  exact hc

lemma ora_counters {c : CPU} {mode : AddressingMode} {c2 : CPU}
    (h : c.ora mode = .ok c2) : c2.bus.counters = c.bus.counters := by
  unfold CPU.ora at h
  obtain ⟨⟨a1, cm⟩, h1, h⟩ := bind_eq_ok h
  obtain ⟨⟨v1, cm2⟩, h2, h⟩ := bind_eq_ok h
  have hc := (cpuMemRead_counters h2).trans (getOperandAddress_counters h1)
  simp only [Except.ok.injEq] at h
  subst h
  exact hc

lemma lda_counters {c : CPU} {mode : AddressingMode} {c2 : CPU}
    (h : c.lda mode = .ok c2) : c2.bus.counters = c.bus.counters := by
  unfold CPU.lda at h
  obtain ⟨⟨a1, cm⟩, h1, h⟩ := bind_eq_ok h
  obtain ⟨⟨v1, cm2⟩, h2, h⟩ := bind_eq_ok h
  have hc := (cpuMemRead_counters h2).trans (getOperandAddress_counters h1)
  simp only [Except.ok.injEq] at h
  subst h
  exact hc

lemma ldx_counters {c : CPU} {mode : AddressingMode} {c2 : CPU}
    (h : c.ldx mode = .ok c2) : c2.bus.counters = c.bus.counters := by
  unfold CPU.ldx at h
  obtain ⟨⟨a1, cm⟩, h1, h⟩ := bind_eq_ok h
  obtain ⟨⟨v1, cm2⟩, h2, h⟩ := bind_eq_ok h
  have hc := (cpuMemRead_counters h2).trans (getOperandAddress_counters h1)
  simp only [Except.ok.injEq] at h
  subst h
  exact hc

lemma ldy_counters {c : CPU} {mode : AddressingMode} {c2 : CPU}
    (h : c.ldy mode = .ok c2) : c2.bus.counters = c.bus.counters := by
  unfold CPU.ldy at h
  obtain ⟨⟨a1, cm⟩, h1, h⟩ := bind_eq_ok h
  obtain ⟨⟨v1, cm2⟩, h2, h⟩ := bind_eq_ok h
  have hc := (cpuMemRead_counters h2).trans (getOperandAddress_counters h1)
  simp only [Except.ok.injEq] at h
  subst h
  exact hc

lemma bit_counters {c : CPU} {mode : AddressingMode} {c2 : CPU}
    (h : c.bit mode = .ok c2) : c2.bus.counters = c.bus.counters := by
  unfold CPU.bit at h
  obtain ⟨⟨a1, cm⟩, h1, h⟩ := bind_eq_ok h
  obtain ⟨⟨v1, cm2⟩, h2, h⟩ := bind_eq_ok h
  have hc := (cpuMemRead_counters h2).trans (getOperandAddress_counters h1)
  simp only [Except.ok.injEq] at h
  subst h
  exact hc

lemma compare_counters {c : CPU} {r : Nat} {mode : AddressingMode} {c2 : CPU}
    (h : c.compare r mode = .ok c2) : c2.bus.counters = c.bus.counters := by
  unfold CPU.compare at h
  obtain ⟨⟨a1, cm⟩, h1, h⟩ := bind_eq_ok h
  obtain ⟨⟨v1, cm2⟩, h2, h⟩ := bind_eq_ok h
  have hc := (cpuMemRead_counters h2).trans (getOperandAddress_counters h1)
  simp only [Except.ok.injEq] at h
  subst h
  exact hc

lemma cmp_counters {c : CPU} {mode : AddressingMode} {c2 : CPU}
    (h : c.cmp mode = .ok c2) : c2.bus.counters = c.bus.counters :=
  compare_counters h

lemma cpx_counters {c : CPU} {mode : AddressingMode} {c2 : CPU}
    (h : c.cpx mode = .ok c2) : c2.bus.counters = c.bus.counters :=
  compare_counters h

lemma cpy_counters {c : CPU} {mode : AddressingMode} {c2 : CPU}
    (h : c.cpy mode = .ok c2) : c2.bus.counters = c.bus.counters :=
  compare_counters h

lemma dec_counters {c : CPU} {mode : AddressingMode} {c2 : CPU}
    (h : c.dec mode = .ok c2) : c2.bus.counters = c.bus.counters := by
  unfold CPU.dec at h
  obtain ⟨⟨a1, cm⟩, h1, h⟩ := bind_eq_ok h
  obtain ⟨⟨v1, cm2⟩, h2, h⟩ := bind_eq_ok h
  obtain ⟨cm3, h3, h⟩ := bind_eq_ok h
  have hc := ((cpuMemWrite_counters h3).trans (cpuMemRead_counters h2)).trans
    (getOperandAddress_counters h1)
  simp only [Except.ok.injEq] at h
  subst h
  exact hc

lemma inc_counters {c : CPU} {mode : AddressingMode} {c2 : CPU}
    (h : c.inc mode = .ok c2) : c2.bus.counters = c.bus.counters := by
  unfold CPU.inc at h
  obtain ⟨⟨a1, cm⟩, h1, h⟩ := bind_eq_ok h
  obtain ⟨⟨v1, cm2⟩, h2, h⟩ := bind_eq_ok h
  obtain ⟨cm3, h3, h⟩ := bind_eq_ok h
  have hc := ((cpuMemWrite_counters h3).trans (cpuMemRead_counters h2)).trans
    (getOperandAddress_counters h1)
  simp only [Except.ok.injEq] at h
  subst h
  exact hc

lemma asl_counters {c : CPU} {mode : AddressingMode} {c2 : CPU}
    (h : c.asl mode = .ok c2) : c2.bus.counters = c.bus.counters := by
  unfold CPU.asl at h
  cases mode <;> dsimp only at h
  case None =>
    simp only [Except.ok.injEq] at h
    subst h
    rfl
  all_goals
    obtain ⟨⟨a1, cm⟩, h1, h⟩ := bind_eq_ok h
  all_goals
    obtain ⟨⟨v1, cm2⟩, h2, h⟩ := bind_eq_ok h
  all_goals
    obtain ⟨cm3, h3, h⟩ := bind_eq_ok h
  all_goals
    obtain ⟨⟨v2, cm4⟩, h4, h⟩ := bind_eq_ok h
  all_goals
    have hc := (((cpuMemRead_counters h4).trans (cpuMemWrite_counters h3)).trans
      (cpuMemRead_counters h2)).trans (getOperandAddress_counters h1)
  all_goals
    simp only [Except.ok.injEq] at h
  all_goals
    subst h
  all_goals
    exact hc

lemma lsr_counters {c : CPU} {mode : AddressingMode} {c2 : CPU}
    (h : c.lsr mode = .ok c2) : c2.bus.counters = c.bus.counters := by
  unfold CPU.lsr at h
  cases mode <;> dsimp only at h
  case None =>
    simp only [Except.ok.injEq] at h
    subst h
    rfl
  all_goals
    obtain ⟨⟨a1, cm⟩, h1, h⟩ := bind_eq_ok h
  all_goals
    obtain ⟨⟨v1, cm2⟩, h2, h⟩ := bind_eq_ok h
  all_goals
    obtain ⟨cm3, h3, h⟩ := bind_eq_ok h
  all_goals
    obtain ⟨⟨v2, cm4⟩, h4, h⟩ := bind_eq_ok h
  all_goals
    have hc := (((cpuMemRead_counters h4).trans (cpuMemWrite_counters h3)).trans
      (cpuMemRead_counters h2)).trans (getOperandAddress_counters h1)
  all_goals
    simp only [Except.ok.injEq] at h
  all_goals
    subst h
  all_goals
    exact hc

lemma rol_counters {c : CPU} {mode : AddressingMode} {c2 : CPU}
    (h : c.rol mode = .ok c2) : c2.bus.counters = c.bus.counters := by
  unfold CPU.rol at h
  cases mode <;> dsimp only at h
  case None =>
    simp only [Except.ok.injEq] at h
    subst h
    rfl
  all_goals
    obtain ⟨⟨a1, cm⟩, h1, h⟩ := bind_eq_ok h
  all_goals
    obtain ⟨⟨v1, cm2⟩, h2, h⟩ := bind_eq_ok h
  all_goals
    obtain ⟨cm3, h3, h⟩ := bind_eq_ok h
  all_goals
    have hc := ((cpuMemWrite_counters h3).trans (cpuMemRead_counters h2)).trans
      (getOperandAddress_counters h1)
  all_goals
    simp only [Except.ok.injEq] at h
  all_goals
    subst h
  all_goals
    exact hc

lemma ror_counters {c : CPU} {mode : AddressingMode} {c2 : CPU}
    (h : c.ror mode = .ok c2) : c2.bus.counters = c.bus.counters := by
  unfold CPU.ror at h
  cases mode <;> dsimp only at h
  case None =>
    simp only [Except.ok.injEq] at h
    subst h
    rfl
  all_goals
    obtain ⟨⟨a1, cm⟩, h1, h⟩ := bind_eq_ok h
  all_goals
    obtain ⟨⟨v1, cm2⟩, h2, h⟩ := bind_eq_ok h
  all_goals
    obtain ⟨cm3, h3, h⟩ := bind_eq_ok h
  all_goals
    have hc := ((cpuMemWrite_counters h3).trans (cpuMemRead_counters h2)).trans
      (getOperandAddress_counters h1)
  all_goals
    simp only [Except.ok.injEq] at h
  all_goals
    subst h
  all_goals
    exact hc

lemma sta_counters {c : CPU} {mode : AddressingMode} {c2 : CPU}
    (h : c.sta mode = .ok c2) : c2.bus.counters = c.bus.counters := by
  unfold CPU.sta at h
  obtain ⟨⟨a1, cm⟩, h1, h⟩ := bind_eq_ok h
  exact (cpuMemWrite_counters h).trans (getOperandAddress_counters h1)

lemma stx_counters {c : CPU} {mode : AddressingMode} {c2 : CPU}
    (h : c.stx mode = .ok c2) : c2.bus.counters = c.bus.counters := by
  unfold CPU.stx at h
  obtain ⟨⟨a1, cm⟩, h1, h⟩ := bind_eq_ok h
  exact (cpuMemWrite_counters h).trans (getOperandAddress_counters h1)

lemma sty_counters {c : CPU} {mode : AddressingMode} {c2 : CPU}
    (h : c.sty mode = .ok c2) : c2.bus.counters = c.bus.counters := by
  unfold CPU.sty at h
  obtain ⟨⟨a1, cm⟩, h1, h⟩ := bind_eq_ok h
  exact (cpuMemWrite_counters h).trans (getOperandAddress_counters h1)

lemma branch_counters {c : CPU} {cond : Bool} {c2 : CPU}
    (h : c.branch cond = .ok c2) : c2.bus.counters = c.bus.counters := by
  unfold CPU.branch at h
  split at h
  · obtain ⟨⟨j, cm⟩, h1, h⟩ := bind_eq_ok h
    have hc := cpuMemRead_counters h1
    simp only [Except.ok.injEq] at h
    subst h
    exact hc
  · simp only [Except.ok.injEq] at h
    subst h
    rfl

lemma stackPush_counters {c : CPU} {d : Nat} {c2 : CPU}
    (h : c.stackPush d = .ok c2) : c2.bus.counters = c.bus.counters := by
  unfold CPU.stackPush at h
  obtain ⟨cm, h1, h⟩ := bind_eq_ok h
  have hc := cpuMemWrite_counters h1
  simp only [Except.ok.injEq] at h
  subst h
  exact hc

lemma stackPushU16_counters {c : CPU} {d : Nat} {c2 : CPU}
    (h : c.stackPushU16 d = .ok c2) : c2.bus.counters = c.bus.counters := by
  unfold CPU.stackPushU16 at h
  dsimp only at h
  obtain ⟨cm, h1, h⟩ := bind_eq_ok h
  exact (stackPush_counters h).trans (stackPush_counters h1)

lemma stackPop_counters {c : CPU} {v : Nat} {c2 : CPU}
    (h : c.stackPop = .ok (v, c2)) : c2.bus.counters = c.bus.counters := by
  unfold CPU.stackPop at h
  dsimp only at h
  have hc := cpuMemRead_counters h
  exact hc

lemma stackPopU16_counters {c : CPU} {v : Nat} {c2 : CPU}
    (h : c.stackPopU16 = .ok (v, c2)) : c2.bus.counters = c.bus.counters := by
  unfold CPU.stackPopU16 at h
  obtain ⟨⟨v1, cm⟩, h1, h⟩ := bind_eq_ok h
  obtain ⟨⟨v2, cm2⟩, h2, h⟩ := bind_eq_ok h
  have hc := (stackPop_counters h2).trans (stackPop_counters h1)
  simp only [Except.ok.injEq, Prod.mk.injEq] at h
  obtain ⟨h3, h4⟩ := h
  subst h4
  exact hc

lemma jsr_counters {c : CPU} {c2 : CPU}
    (h : c.jsr = .ok c2) : c2.bus.counters = c.bus.counters := by
  unfold CPU.jsr at h
  obtain ⟨cm, h1, h⟩ := bind_eq_ok h
  obtain ⟨⟨t, cm2⟩, h2, h⟩ := bind_eq_ok h
  have hc := (cpuMemReadU16_counters h2).trans (stackPushU16_counters h1)
  simp only [Except.ok.injEq] at h
  subst h
  exact hc

lemma rts_counters {c : CPU} {c2 : CPU}
    (h : c.rts = .ok c2) : c2.bus.counters = c.bus.counters := by
  unfold CPU.rts at h
  obtain ⟨⟨v1, cm⟩, h1, h⟩ := bind_eq_ok h
  have hc := stackPopU16_counters h1
  simp only [Except.ok.injEq] at h
  subst h
  exact hc

lemma rti_counters {c : CPU} {c2 : CPU}
    (h : c.rti = .ok c2) : c2.bus.counters = c.bus.counters := by
  unfold CPU.rti at h
  obtain ⟨⟨v1, cm⟩, h1, h⟩ := bind_eq_ok h
  obtain ⟨⟨v2, cm2⟩, h2, h⟩ := bind_eq_ok h
  have hb := stackPopU16_counters h2
  have hb2 : cm2.bus.counters = cm.bus.counters := hb
  have hc := hb2.trans (stackPop_counters h1)
  simp only [Except.ok.injEq] at h
  subst h
  exact hc

lemma php_counters {c : CPU} {c2 : CPU}
    (h : c.php = .ok c2) : c2.bus.counters = c.bus.counters :=
  stackPush_counters h

lemma pla_counters {c : CPU} {c2 : CPU}
    (h : c.pla = .ok c2) : c2.bus.counters = c.bus.counters := by
  unfold CPU.pla at h
  obtain ⟨⟨v1, cm⟩, h1, h⟩ := bind_eq_ok h
  have hc := stackPop_counters h1
  simp only [Except.ok.injEq] at h
  subst h
  exact hc

lemma plp_counters {c : CPU} {c2 : CPU}
    (h : c.plp = .ok c2) : c2.bus.counters = c.bus.counters := by
  unfold CPU.plp at h
  obtain ⟨⟨v1, cm⟩, h1, h⟩ := bind_eq_ok h
  have hc := stackPop_counters h1
  simp only [Except.ok.injEq] at h
  subst h
  exact hc



/-- The CPU carried by either constructor of StepOut. -/
def StepOut.cpu : StepOut → CPU
  | .stepped c => c
  | .brkExit c => c

lemma map_stepped_eq_ok {x : Except EmuErr CPU} {out : StepOut}
    (h : x.map StepOut.stepped = .ok out) : ∃ c2, x = .ok c2 ∧ out = .stepped c2 := by
  cases x with
  | ok a =>
      refine ⟨a, rfl, ?_⟩
      simp only [Except.map, Except.ok.injEq] at h
      exact h.symm
  | error e => simp [Except.map] at h



set_option maxHeartbeats 4000000 in
lemma execOpcode_counters {c : CPU} {code : Nat} {mode : AddressingMode} {out : StepOut}
    (h : c.execOpcode code mode = .ok out) : out.cpu.bus.counters = c.bus.counters := by
  unfold CPU.execOpcode at h
  by_cases hc1 : code = 0x69 ∨ code = 0x65 ∨ code = 0x75 ∨ code = 0x6D ∨ code = 0x7D ∨ code = 0x79 ∨ code = 0x61 ∨ code = 0x71
  · rw [if_pos hc1] at h
    obtain ⟨cr, hx, ho⟩ := map_stepped_eq_ok h
    subst ho
    exact adc_counters hx
  rw [if_neg hc1] at h
  by_cases hc2 : code = 0x29 ∨ code = 0x25 ∨ code = 0x35 ∨ code = 0x2D ∨ code = 0x3D ∨ code = 0x39 ∨ code = 0x21 ∨ code = 0x31
  · rw [if_pos hc2] at h
    obtain ⟨cr, hx, ho⟩ := map_stepped_eq_ok h
    subst ho
    exact and_counters hx
  rw [if_neg hc2] at h
  by_cases hc3 : code = 0x0A ∨ code = 0x06 ∨ code = 0x16 ∨ code = 0x0E ∨ code = 0x1E
  · rw [if_pos hc3] at h
    obtain ⟨cr, hx, ho⟩ := map_stepped_eq_ok h
    subst ho
    exact asl_counters hx
  rw [if_neg hc3] at h
  by_cases hc4 : code = 0x90
  · rw [if_pos hc4] at h
    obtain ⟨cr, hx, ho⟩ := map_stepped_eq_ok h
    subst ho
    exact branch_counters hx
  rw [if_neg hc4] at h
  by_cases hc5 : code = 0xB0
  · rw [if_pos hc5] at h
    obtain ⟨cr, hx, ho⟩ := map_stepped_eq_ok h
    subst ho
    exact branch_counters hx
  rw [if_neg hc5] at h
  by_cases hc6 : code = 0xF0
  · rw [if_pos hc6] at h
    obtain ⟨cr, hx, ho⟩ := map_stepped_eq_ok h
    subst ho
    exact branch_counters hx
  rw [if_neg hc6] at h
  by_cases hc7 : code = 0x30
  · rw [if_pos hc7] at h
    obtain ⟨cr, hx, ho⟩ := map_stepped_eq_ok h
    subst ho
    exact branch_counters hx
  rw [if_neg hc7] at h
  by_cases hc8 : code = 0xD0
  · rw [if_pos hc8] at h
    obtain ⟨cr, hx, ho⟩ := map_stepped_eq_ok h
    subst ho
    exact branch_counters hx
  rw [if_neg hc8] at h
  by_cases hc9 : code = 0x10
  · rw [if_pos hc9] at h
    obtain ⟨cr, hx, ho⟩ := map_stepped_eq_ok h
    subst ho
    exact branch_counters hx
  rw [if_neg hc9] at h
  by_cases hc10 : code = 0x50
  · rw [if_pos hc10] at h
    obtain ⟨cr, hx, ho⟩ := map_stepped_eq_ok h
    subst ho
    exact branch_counters hx
  rw [if_neg hc10] at h
  by_cases hc11 : code = 0x70
  · rw [if_pos hc11] at h
    obtain ⟨cr, hx, ho⟩ := map_stepped_eq_ok h
    subst ho
    exact branch_counters hx
  rw [if_neg hc11] at h
  by_cases hc12 : code = 0x24 ∨ code = 0x2C
  · rw [if_pos hc12] at h
    obtain ⟨cr, hx, ho⟩ := map_stepped_eq_ok h
    subst ho
    exact bit_counters hx
  rw [if_neg hc12] at h
  by_cases hc13 : code = 0x18
  · rw [if_pos hc13] at h
    simp only [Except.ok.injEq] at h
    subst h
    rfl
  rw [if_neg hc13] at h
  by_cases hc14 : code = 0xD8
  · rw [if_pos hc14] at h
    simp only [Except.ok.injEq] at h
    subst h
    rfl
  rw [if_neg hc14] at h
  by_cases hc15 : code = 0x58
  · rw [if_pos hc15] at h
    simp only [Except.ok.injEq] at h
    subst h
    rfl
  rw [if_neg hc15] at h
  by_cases hc16 : code = 0xB8
  · rw [if_pos hc16] at h
    simp only [Except.ok.injEq] at h
    subst h
    rfl
  rw [if_neg hc16] at h
  by_cases hc17 : code = 0xC9 ∨ code = 0xC5 ∨ code = 0xD5 ∨ code = 0xCD ∨ code = 0xDD ∨ code = 0xD9 ∨ code = 0xC1 ∨ code = 0xD1
  · rw [if_pos hc17] at h
    obtain ⟨cr, hx, ho⟩ := map_stepped_eq_ok h
    subst ho
    exact cmp_counters hx
  rw [if_neg hc17] at h
  by_cases hc18 : code = 0xE0 ∨ code = 0xE4 ∨ code = 0xEC
  · rw [if_pos hc18] at h
    obtain ⟨cr, hx, ho⟩ := map_stepped_eq_ok h
    subst ho
    exact cpx_counters hx
  rw [if_neg hc18] at h
  by_cases hc19 : code = 0xC0 ∨ code = 0xC4 ∨ code = 0xCC
  · rw [if_pos hc19] at h
    obtain ⟨cr, hx, ho⟩ := map_stepped_eq_ok h
    subst ho
    exact cpy_counters hx
  rw [if_neg hc19] at h
  by_cases hc20 : code = 0xC6 ∨ code = 0xD6 ∨ code = 0xCE ∨ code = 0xDE
  · rw [if_pos hc20] at h
    obtain ⟨cr, hx, ho⟩ := map_stepped_eq_ok h
    subst ho
    exact dec_counters hx
  rw [if_neg hc20] at h
  by_cases hc21 : code = 0xCA
  · rw [if_pos hc21] at h
    simp only [Except.ok.injEq] at h
    subst h
    rfl
  rw [if_neg hc21] at h
  by_cases hc22 : code = 0x88
  · rw [if_pos hc22] at h
    simp only [Except.ok.injEq] at h
    subst h
    rfl
  rw [if_neg hc22] at h
  by_cases hc23 : code = 0x49 ∨ code = 0x45 ∨ code = 0x55 ∨ code = 0x4D ∨ code = 0x5D ∨ code = 0x59 ∨ code = 0x41 ∨ code = 0x51
  · rw [if_pos hc23] at h
    obtain ⟨cr, hx, ho⟩ := map_stepped_eq_ok h
    subst ho
    exact eor_counters hx
  rw [if_neg hc23] at h
  by_cases hc24 : code = 0x6C
  · rw [if_pos hc24] at h
    obtain ⟨⟨a1, cm⟩, h1, h⟩ := bind_eq_ok h
    have ha := cpuMemReadU16_counters h1
    dsimp only at h
    split at h
    · obtain ⟨⟨lo1, cmA⟩, hA, h⟩ := bind_eq_ok h
      obtain ⟨⟨hi1, cmB⟩, hB, h⟩ := bind_eq_ok h
      rw [pure_bind] at h
      simp only [Except.ok.injEq] at h
      subst h
      exact ((cpuMemRead_counters hB).trans (cpuMemRead_counters hA)).trans ha
    · obtain ⟨⟨ir, cm4⟩, hX, h⟩ := bind_eq_ok h
      simp only [Except.ok.injEq] at h
      subst h
      exact (cpuMemReadU16_counters hX).trans ha
  rw [if_neg hc24] at h
  by_cases hc25 : code = 0x4C
  · rw [if_pos hc25] at h
    obtain ⟨⟨a1, cm⟩, h1, h⟩ := bind_eq_ok h
    have ha := cpuMemReadU16_counters h1
    simp only [Except.ok.injEq] at h
    subst h
    exact ha
  rw [if_neg hc25] at h
  by_cases hc26 : code = 0x20
  · rw [if_pos hc26] at h
    obtain ⟨cr, hx, ho⟩ := map_stepped_eq_ok h
    subst ho
    exact jsr_counters hx
  rw [if_neg hc26] at h
  by_cases hc27 : code = 0x60
  · rw [if_pos hc27] at h
    obtain ⟨cr, hx, ho⟩ := map_stepped_eq_ok h
    subst ho
    exact rts_counters hx
  rw [if_neg hc27] at h
  by_cases hc28 : code = 0x40
  · rw [if_pos hc28] at h
    obtain ⟨cr, hx, ho⟩ := map_stepped_eq_ok h
    subst ho
    exact rti_counters hx
  rw [if_neg hc28] at h
  by_cases hc29 : code = 0xE6 ∨ code = 0xF6 ∨ code = 0xEE ∨ code = 0xFE
  · rw [if_pos hc29] at h
    obtain ⟨cr, hx, ho⟩ := map_stepped_eq_ok h
    subst ho
    exact inc_counters hx
  rw [if_neg hc29] at h
  by_cases hc30 : code = 0xE8
  · rw [if_pos hc30] at h
    simp only [Except.ok.injEq] at h
    subst h
    rfl
  rw [if_neg hc30] at h
  by_cases hc31 : code = 0xC8
  · rw [if_pos hc31] at h
    simp only [Except.ok.injEq] at h
    subst h
    rfl
  rw [if_neg hc31] at h
  by_cases hc32 : code = 0xA9 ∨ code = 0xA5 ∨ code = 0xB5 ∨ code = 0xAD ∨ code = 0xBD ∨ code = 0xB9 ∨ code = 0xA1 ∨ code = 0xB1
  · rw [if_pos hc32] at h
    obtain ⟨cr, hx, ho⟩ := map_stepped_eq_ok h
    subst ho
    exact lda_counters hx
  rw [if_neg hc32] at h
  by_cases hc33 : code = 0xA2 ∨ code = 0xA6 ∨ code = 0xB6 ∨ code = 0xAE ∨ code = 0xBE
  · rw [if_pos hc33] at h
    obtain ⟨cr, hx, ho⟩ := map_stepped_eq_ok h
    subst ho
    exact ldx_counters hx
  rw [if_neg hc33] at h
  by_cases hc34 : code = 0xA0 ∨ code = 0xA4 ∨ code = 0xB4 ∨ code = 0xAC ∨ code = 0xBC
  · rw [if_pos hc34] at h
    obtain ⟨cr, hx, ho⟩ := map_stepped_eq_ok h
    subst ho
    exact ldy_counters hx
  rw [if_neg hc34] at h
  by_cases hc35 : code = 0x4A ∨ code = 0x46 ∨ code = 0x56 ∨ code = 0x4E ∨ code = 0x5E
  · rw [if_pos hc35] at h
    obtain ⟨cr, hx, ho⟩ := map_stepped_eq_ok h
    subst ho
    exact lsr_counters hx
  rw [if_neg hc35] at h
  by_cases hc36 : code = 0xEA
  · rw [if_pos hc36] at h
    simp only [Except.ok.injEq] at h
    subst h
    rfl
  rw [if_neg hc36] at h
  by_cases hc37 : code = 0x09 ∨ code = 0x05 ∨ code = 0x15 ∨ code = 0x0D ∨ code = 0x1D ∨ code = 0x19 ∨ code = 0x01 ∨ code = 0x11
  · rw [if_pos hc37] at h
    obtain ⟨cr, hx, ho⟩ := map_stepped_eq_ok h
    subst ho
    exact ora_counters hx
  rw [if_neg hc37] at h
  by_cases hc38 : code = 0x48
  · rw [if_pos hc38] at h
    obtain ⟨cr, hx, ho⟩ := map_stepped_eq_ok h
    subst ho
    exact stackPush_counters hx
  rw [if_neg hc38] at h
  by_cases hc39 : code = 0x08
  · rw [if_pos hc39] at h
    obtain ⟨cr, hx, ho⟩ := map_stepped_eq_ok h
    subst ho
    exact php_counters hx
  rw [if_neg hc39] at h
  by_cases hc40 : code = 0x68
  · rw [if_pos hc40] at h
    obtain ⟨cr, hx, ho⟩ := map_stepped_eq_ok h
    subst ho
    exact pla_counters hx
  rw [if_neg hc40] at h
  by_cases hc41 : code = 0x28
  · rw [if_pos hc41] at h
    obtain ⟨cr, hx, ho⟩ := map_stepped_eq_ok h
    subst ho
    exact plp_counters hx
  rw [if_neg hc41] at h
  by_cases hc42 : code = 0x2A ∨ code = 0x26 ∨ code = 0x36 ∨ code = 0x2E ∨ code = 0x3E
  · rw [if_pos hc42] at h
    obtain ⟨cr, hx, ho⟩ := map_stepped_eq_ok h
    subst ho
    exact rol_counters hx
  rw [if_neg hc42] at h
  by_cases hc43 : code = 0x6A ∨ code = 0x66 ∨ code = 0x76 ∨ code = 0x6E ∨ code = 0x7E
  · rw [if_pos hc43] at h
    obtain ⟨cr, hx, ho⟩ := map_stepped_eq_ok h
    subst ho
    exact ror_counters hx
  rw [if_neg hc43] at h
  by_cases hc44 : code = 0xE9 ∨ code = 0xE5 ∨ code = 0xF5 ∨ code = 0xED ∨ code = 0xFD ∨ code = 0xF9 ∨ code = 0xE1 ∨ code = 0xF1
  · rw [if_pos hc44] at h
    obtain ⟨cr, hx, ho⟩ := map_stepped_eq_ok h
    subst ho
    exact sbc_counters hx
  rw [if_neg hc44] at h
  by_cases hc45 : code = 0x85 ∨ code = 0x95 ∨ code = 0x8D ∨ code = 0x9D ∨ code = 0x99 ∨ code = 0x81 ∨ code = 0x91
  · rw [if_pos hc45] at h
    obtain ⟨cr, hx, ho⟩ := map_stepped_eq_ok h
    subst ho
    exact sta_counters hx
  rw [if_neg hc45] at h
  by_cases hc46 : code = 0x84 ∨ code = 0x94 ∨ code = 0x8C
  · rw [if_pos hc46] at h
    obtain ⟨cr, hx, ho⟩ := map_stepped_eq_ok h
    subst ho
    exact sty_counters hx
  rw [if_neg hc46] at h
  by_cases hc47 : code = 0x86 ∨ code = 0x96 ∨ code = 0x8E
  · rw [if_pos hc47] at h
    obtain ⟨cr, hx, ho⟩ := map_stepped_eq_ok h
    subst ho
    exact stx_counters hx
  rw [if_neg hc47] at h
  by_cases hc48 : code = 0x38
  · rw [if_pos hc48] at h
    simp only [Except.ok.injEq] at h
    subst h
    rfl
  rw [if_neg hc48] at h
  by_cases hc49 : code = 0xF8
  · rw [if_pos hc49] at h
    simp only [Except.ok.injEq] at h
    subst h
    rfl
  rw [if_neg hc49] at h
  by_cases hc50 : code = 0x78
  · rw [if_pos hc50] at h
    simp only [Except.ok.injEq] at h
    subst h
    rfl
  rw [if_neg hc50] at h
  by_cases hc51 : code = 0xAA
  · rw [if_pos hc51] at h
    simp only [Except.ok.injEq] at h
    subst h
    rfl
  rw [if_neg hc51] at h
  by_cases hc52 : code = 0xA8
  · rw [if_pos hc52] at h
    simp only [Except.ok.injEq] at h
    subst h
    rfl
  rw [if_neg hc52] at h
  by_cases hc53 : code = 0xBA
  · rw [if_pos hc53] at h
    simp only [Except.ok.injEq] at h
    subst h
    rfl
  rw [if_neg hc53] at h
  by_cases hc54 : code = 0x8A
  · rw [if_pos hc54] at h
    simp only [Except.ok.injEq] at h
    subst h
    rfl
  rw [if_neg hc54] at h
  by_cases hc55 : code = 0x9A
  · rw [if_pos hc55] at h
    simp only [Except.ok.injEq] at h
    subst h
    rfl
  rw [if_neg hc55] at h
  by_cases hc56 : code = 0x98
  · rw [if_pos hc56] at h
    simp only [Except.ok.injEq] at h
    subst h
    rfl
  rw [if_neg hc56] at h
  by_cases hc57 : code = 0x1A ∨ code = 0x3A ∨ code = 0x5A ∨ code = 0x7A ∨ code = 0xDA ∨ code = 0xFA
  · rw [if_pos hc57] at h
    simp only [Except.ok.injEq] at h
    subst h
    rfl
  rw [if_neg hc57] at h
  by_cases hc58 : code = 0x80 ∨ code = 0x82 ∨ code = 0x89 ∨ code = 0xC2 ∨ code = 0xE2
  · rw [if_pos hc58] at h
    simp only [Except.ok.injEq] at h
    subst h
    rfl
  rw [if_neg hc58] at h
  by_cases hc59 : code = 0x0C ∨ code = 0x1C ∨ code = 0x3C ∨ code = 0x5C ∨ code = 0x7C ∨ code = 0xDC ∨ code = 0xFC ∨ code = 0x04 ∨ code = 0x44 ∨ code = 0x64 ∨ code = 0x14 ∨ code = 0x34 ∨ code = 0x54 ∨ code = 0x74 ∨ code = 0xD4 ∨ code = 0xF4
  · rw [if_pos hc59] at h
    simp only [Except.ok.injEq] at h
    subst h
    rfl
  rw [if_neg hc59] at h
  by_cases hc60 : code = 0xA3 ∨ code = 0xA7 ∨ code = 0xAF ∨ code = 0xB3 ∨ code = 0xB7 ∨ code = 0xBF
  · rw [if_pos hc60] at h
    obtain ⟨c1, h1, h⟩ := bind_eq_ok h
    simp only [Except.ok.injEq] at h
    subst h
    have hz := lda_counters h1
    exact hz
  rw [if_neg hc60] at h
  by_cases hc61 : code = 0x83 ∨ code = 0x87 ∨ code = 0x8F ∨ code = 0x97
  · rw [if_pos hc61] at h
    obtain ⟨⟨a1, cm⟩, h1, h⟩ := bind_eq_ok h
    obtain ⟨cm2, h2, h⟩ := bind_eq_ok h
    have hb := cpuMemWrite_counters h2
    have hb2 : cm2.bus.counters = cm.bus.counters := hb
    have hc := hb2.trans (getOperandAddress_counters h1)
    have hc2 : cm2.bus.counters = c.bus.counters := hc
    simp only [Except.ok.injEq] at h
    subst h
    exact hc2
  rw [if_neg hc61] at h
  by_cases hc62 : code = 0xEB
  · rw [if_pos hc62] at h
    obtain ⟨cr, hx, ho⟩ := map_stepped_eq_ok h
    subst ho
    exact sbc_counters hx
  rw [if_neg hc62] at h
  by_cases hc63 : code = 0xC3 ∨ code = 0xC7 ∨ code = 0xCF ∨ code = 0xD3 ∨ code = 0xD7 ∨ code = 0xDB ∨ code = 0xDF
  · rw [if_pos hc63] at h
    obtain ⟨c1, h1, h⟩ := bind_eq_ok h
    obtain ⟨c2x, h2, h⟩ := bind_eq_ok h
    simp only [Except.ok.injEq] at h
    subst h
    exact (cmp_counters h2).trans (dec_counters h1)
  rw [if_neg hc63] at h
  by_cases hc64 : code = 0xE3 ∨ code = 0xE7 ∨ code = 0xEF ∨ code = 0xF3 ∨ code = 0xF7 ∨ code = 0xFB ∨ code = 0xFF
  · rw [if_pos hc64] at h
    obtain ⟨c1, h1, h⟩ := bind_eq_ok h
    obtain ⟨c2x, h2, h⟩ := bind_eq_ok h
    simp only [Except.ok.injEq] at h
    subst h
    exact (sbc_counters h2).trans (inc_counters h1)
  rw [if_neg hc64] at h
  by_cases hc65 : code = 0x03 ∨ code = 0x07 ∨ code = 0x0F ∨ code = 0x13 ∨ code = 0x17 ∨ code = 0x1B ∨ code = 0x1F
  · rw [if_pos hc65] at h
    obtain ⟨c1, h1, h⟩ := bind_eq_ok h
    obtain ⟨c2x, h2, h⟩ := bind_eq_ok h
    simp only [Except.ok.injEq] at h
    subst h
    exact (ora_counters h2).trans (asl_counters h1)
  rw [if_neg hc65] at h
  by_cases hc66 : code = 0x23 ∨ code = 0x27 ∨ code = 0x2F ∨ code = 0x33 ∨ code = 0x37 ∨ code = 0x3B ∨ code = 0x3F
  · rw [if_pos hc66] at h
    obtain ⟨c1, h1, h⟩ := bind_eq_ok h
    obtain ⟨c2x, h2, h⟩ := bind_eq_ok h
    simp only [Except.ok.injEq] at h
    subst h
    exact (and_counters h2).trans (rol_counters h1)
  rw [if_neg hc66] at h
  by_cases hc67 : code = 0x43 ∨ code = 0x47 ∨ code = 0x4F ∨ code = 0x53 ∨ code = 0x57 ∨ code = 0x5B ∨ code = 0x5F
  · rw [if_pos hc67] at h
    obtain ⟨c1, h1, h⟩ := bind_eq_ok h
    obtain ⟨c2x, h2, h⟩ := bind_eq_ok h
    simp only [Except.ok.injEq] at h
    subst h
    exact (eor_counters h2).trans (lsr_counters h1)
  rw [if_neg hc67] at h
  by_cases hc68 : code = 0x63 ∨ code = 0x67 ∨ code = 0x6F ∨ code = 0x73 ∨ code = 0x77 ∨ code = 0x7B ∨ code = 0x7F
  · rw [if_pos hc68] at h
    obtain ⟨c1, h1, h⟩ := bind_eq_ok h
    obtain ⟨c2x, h2, h⟩ := bind_eq_ok h
    simp only [Except.ok.injEq] at h
    subst h
    exact (adc_counters h2).trans (ror_counters h1)
  rw [if_neg hc68] at h
  by_cases hc69 : code = 0x4B
  · rw [if_pos hc69] at h
    obtain ⟨c1, h1, h⟩ := bind_eq_ok h
    obtain ⟨c2x, h2, h⟩ := bind_eq_ok h
    simp only [Except.ok.injEq] at h
    subst h
    exact (lsr_counters h2).trans (and_counters h1)
  rw [if_neg hc69] at h
  by_cases hc70 : code = 0x0B ∨ code = 0x2B
  · rw [if_pos hc70] at h
    obtain ⟨c1, h1, h⟩ := bind_eq_ok h
    simp only [Except.ok.injEq] at h
    subst h
    have hz := and_counters h1
    exact hz
  rw [if_neg hc70] at h
  by_cases hc71 : code = 0x6B
  · rw [if_pos hc71] at h
    obtain ⟨c1, h1, h⟩ := bind_eq_ok h
    obtain ⟨c2x, h2, h⟩ := bind_eq_ok h
    simp only [Except.ok.injEq] at h
    subst h
    exact (ror_counters h2).trans (and_counters h1)
  rw [if_neg hc71] at h
  by_cases hc72 : code = 0xCB
  · rw [if_pos hc72] at h
    obtain ⟨⟨a1, cm⟩, h1, h⟩ := bind_eq_ok h
    obtain ⟨⟨v1, cm2⟩, h2, h⟩ := bind_eq_ok h
    have hb := cpuMemRead_counters h2
    have hb2 : cm2.bus.counters = cm.bus.counters := hb
    have hc := hb2.trans (getOperandAddress_counters h1)
    have hc2 : cm2.bus.counters = c.bus.counters := hc
    simp only [Except.ok.injEq] at h
    subst h
    first
    | exact hc2
    | (split <;> exact hc2)
  rw [if_neg hc72] at h
  by_cases hc73 : code = 0xAB
  · rw [if_pos hc73] at h
    obtain ⟨c1, h1, h⟩ := bind_eq_ok h
    simp only [Except.ok.injEq] at h
    subst h
    have hz := and_counters h1
    exact hz
  rw [if_neg hc73] at h
  by_cases hc74 : code = 0x9F ∨ code = 0x93
  · rw [if_pos hc74] at h
    obtain ⟨⟨a1, cm⟩, h1, h⟩ := bind_eq_ok h
    obtain ⟨cm2, h2, h⟩ := bind_eq_ok h
    have hb := cpuMemWrite_counters h2
    have hb2 : cm2.bus.counters = cm.bus.counters := hb
    have hc := hb2.trans (getOperandAddress_counters h1)
    have hc2 : cm2.bus.counters = c.bus.counters := hc
    simp only [Except.ok.injEq] at h
    subst h
    exact hc2
  rw [if_neg hc74] at h
  by_cases hc75 : code = 0x9E
  · rw [if_pos hc75] at h
    obtain ⟨⟨a1, cm⟩, h1, h⟩ := bind_eq_ok h
    obtain ⟨cm2, h2, h⟩ := bind_eq_ok h
    have hb := cpuMemWrite_counters h2
    have hb2 : cm2.bus.counters = cm.bus.counters := hb
    have hc := hb2.trans (getOperandAddress_counters h1)
    have hc2 : cm2.bus.counters = c.bus.counters := hc
    simp only [Except.ok.injEq] at h
    subst h
    exact hc2
  rw [if_neg hc75] at h
  by_cases hc76 : code = 0x9C
  · rw [if_pos hc76] at h
    obtain ⟨⟨a1, cm⟩, h1, h⟩ := bind_eq_ok h
    obtain ⟨cm2, h2, h⟩ := bind_eq_ok h
    have hb := cpuMemWrite_counters h2
    have hb2 : cm2.bus.counters = cm.bus.counters := hb
    have hc := hb2.trans (getOperandAddress_counters h1)
    have hc2 : cm2.bus.counters = c.bus.counters := hc
    simp only [Except.ok.injEq] at h
    subst h
    exact hc2
  rw [if_neg hc76] at h
  by_cases hc77 : code = 0x9B
  · rw [if_pos hc77] at h
    obtain ⟨⟨a1, cm⟩, h1, h⟩ := bind_eq_ok h
    obtain ⟨cm2, h2, h⟩ := bind_eq_ok h
    have hb := cpuMemWrite_counters h2
    have hb2 : cm2.bus.counters = cm.bus.counters := hb
    have hc := hb2.trans (getOperandAddress_counters h1)
    have hc2 : cm2.bus.counters = c.bus.counters := hc
    simp only [Except.ok.injEq] at h
    subst h
    exact hc2
  rw [if_neg hc77] at h
  by_cases hc78 : code = 0x02 ∨ code = 0x12 ∨ code = 0x22 ∨ code = 0x32 ∨ code = 0x42 ∨ code = 0x52 ∨ code = 0x62 ∨ code = 0x72 ∨ code = 0x92 ∨ code = 0xB2 ∨ code = 0xD2 ∨ code = 0xF2
  · rw [if_pos hc78] at h
    exact Except.noConfusion h
  rw [if_neg hc78] at h
  by_cases hc79 : code = 0xBB
  · rw [if_pos hc79] at h
    obtain ⟨⟨a1, cm⟩, h1, h⟩ := bind_eq_ok h
    obtain ⟨⟨v1, cm2⟩, h2, h⟩ := bind_eq_ok h
    have hb := (cpuMemRead_counters h2).trans (getOperandAddress_counters h1)
    have hc : cm2.bus.counters = c.bus.counters := hb
    simp only [Except.ok.injEq] at h
    subst h
    exact hc
  rw [if_neg hc79] at h
  by_cases hc80 : code = 0x8B
  · rw [if_pos hc80] at h
    obtain ⟨⟨a1, cm⟩, h1, h⟩ := bind_eq_ok h
    obtain ⟨⟨v1, cm2⟩, h2, h⟩ := bind_eq_ok h
    have hb := (cpuMemRead_counters h2).trans (getOperandAddress_counters h1)
    have hc : cm2.bus.counters = c.bus.counters := hb
    simp only [Except.ok.injEq] at h
    subst h
    exact hc
  rw [if_neg hc80] at h
  by_cases hc81 : code = 0x00
  · rw [if_pos hc81] at h
    simp only [Except.ok.injEq] at h
    subst h
    rfl
  rw [if_neg hc81] at h
  exact Except.noConfusion h



lemma step_counters {c : CPU} {out : StepOut} (h : c.step = .ok out) :
    out.cpu.bus.counters = c.bus.counters := by
  unfold CPU.step at h
  obtain ⟨⟨code, cm⟩, h1, h⟩ := bind_eq_ok h
  have h0 := cpuMemRead_counters h1
  dsimp only at h
  split at h
  · exact Except.noConfusion h
  · obtain ⟨o1, h2, h⟩ := bind_eq_ok h
    have he := execOpcode_counters h2
    have he2 : o1.cpu.bus.counters = cm.bus.counters := he
    cases o1 with
    | brkExit c2 =>
        dsimp only at h
        simp only [Except.ok.injEq] at h
        subst h
        exact he2.trans h0
    | stepped c2 =>
        dsimp only at h
        split at h
        · simp only [Except.ok.injEq] at h
          subst h
          exact he2.trans h0
        · simp only [Except.ok.injEq] at h
          subst h
          exact he2.trans h0

/-
  Claim theorems.
-/

/-- CPU state used as the concrete BRK input: the next byte is 0x00 and the
status byte is zero, so the I flag is clear before execution. -/
def brkCex : CPU := { testCpu [0x00] with status := 0 }

/-- Counterexample to claim C1 as stated: executing the fetched 0x00 opcode
at a state with I clear leaves the stack pointer at 0xFD (no byte was
pushed, while the claimed interrupt sequence pushes three), leaves the I
flag clear, and leaves PC at 1 (one past the opcode byte) instead of the
vector at 0xFFFE. -/
theorem brk_no_interrupt_sequence_counterexample :
    CPU.step brkCex = .ok (.brkExit { brkCex with programCounter := 1 }) ∧
    ({ brkCex with programCounter := 1 } : CPU).stackPointer = 0xFD ∧
    ({ brkCex with programCounter := 1 } : CPU).status &&& StatusFlags.INTERRUPT_DISABLE = 0 := by
  exact ⟨rfl, rfl, rfl⟩

/-- Claim C1 (amended): for every CPU state whose fetched opcode byte is
0x00, the run loop returns immediately: the BRK arm performs no stack push,
no flag update and no vector load, and the resulting state differs from the
input state only by the bus effect of the opcode fetch itself and by the
program counter sitting one past the opcode byte. -/
theorem brk_returns_from_run_loop (c : CPU) (b2 : Bus)
    (h : c.bus.memRead c.programCounter = .ok (0x00, b2)) :
    c.step =
      .ok (.brkExit { c with bus := b2, programCounter := (c.programCounter + 1) % 0x10000 }) := by
  unfold CPU.step
  simp only [CPU.memRead, h, opcodeTable_0x00, execOpcode_0x00, Except.bind, Bind.bind]

/-- Witness for brk_returns_from_run_loop at the concrete machine brkCex. -/
theorem brk_returns_from_run_loop_witness :
    CPU.step brkCex =
      .ok (.brkExit { brkCex with bus := brkCex.bus, programCounter := (brkCex.programCounter + 1) % 0x10000 }) :=
  brk_returns_from_run_loop brkCex brkCex.bus rfl

/-- Claim C2 (divergence): executing the NOP instruction (opcode 0xEA, base
cycle cost 2 in the opcode table) changes nothing but the program counter
and the fetch effect: in particular the bus cycle counter and the whole PPU
are untouched, because run_with_callback never invokes Bus::tick and never
polls the PPU NMI line.  Bus::tick itself, had it been called, would
advance the counter by the cycle count and tick the PPU by three times as
much; the third conjunct records that behavior.  The fourth conjunct
generalizes the divergence from NOP to every instruction: whatever opcode
a successful iteration of the run loop body executes, the bus cycle
counter, the PPU dot counter and the PPU scanline are bit-identical
afterwards, so no instruction ever advances time. -/
theorem run_loop_never_ticks_bus :
    (∀ (c : CPU) (b2 : Bus), c.bus.memRead c.programCounter = .ok (0xEA, b2) →
       c.step = .ok (.stepped { c with bus := b2, programCounter := (c.programCounter + 1) % 0x10000 })) ∧
    (CPU.step (testCpu [0xEA]) = .ok (.stepped { testCpu [0xEA] with programCounter := 1 })) ∧
    (∀ (b : Bus) (n : Nat),
       (Bus.tick b n).cycles = b.cycles + n ∧ (Bus.tick b n).ppu = (b.ppu.tick ((n * 3) % 256)).2) ∧
    (∀ (c : CPU) (out : StepOut), c.step = .ok out → out.cpu.bus.counters = c.bus.counters) := by
  refine ⟨?_, rfl, fun b n => ⟨rfl, rfl⟩, fun c out h => step_counters h⟩
  intro c b2 h
  unfold CPU.step
  simp only [CPU.memRead, h, opcodeTable_0xEA, execOpcode_0xEA, Except.bind, Bind.bind,
             beq_self_eq_true, if_true, Nat.sub_self, Nat.add_zero]
  rw [Nat.mod_mod_of_dvd _ (dvd_refl 65536)]

/-- Witness for the universally quantified parts of run_loop_never_ticks_bus
at the concrete one-instruction NOP machine. -/
theorem run_loop_never_ticks_bus_witness :
    (CPU.step (testCpu [0xEA]) =
      .ok (.stepped { testCpu [0xEA] with bus := (testCpu [0xEA]).bus, programCounter := ((testCpu [0xEA]).programCounter + 1) % 0x10000 })) ∧
    ((StepOut.stepped { testCpu [0xEA] with programCounter := 1 }).cpu.bus.counters = (testCpu [0xEA]).bus.counters) :=
  ⟨run_loop_never_ticks_bus.1 (testCpu [0xEA]) (testCpu [0xEA]).bus rfl,
   run_loop_never_ticks_bus.2.2.2 (testCpu [0xEA]) (.stepped { testCpu [0xEA] with programCounter := 1 }) rfl⟩

/-- Decimal ADC input with A = 0x30, operand 0x34, carry clear, D set. -/
def bcdCpu1 : CPU :=
  { testCpu [0x69, 0x34] with enableDecimal := true, status := StatusFlags.DECIMAL_MODE, registerA := 0x30 }

/-- Decimal ADC input with A = 0x90, operand 0x05, carry clear, D set. -/
def bcdCpu2 : CPU :=
  { testCpu [0x69, 0x05] with enableDecimal := true, status := StatusFlags.DECIMAL_MODE, registerA := 0x90 }

/-- Claim C3 (divergence): in decimal mode, ADC of 0x30 and 0x34 with carry
clear yields A = 0x64 with the carry flag SET, although the corrected
result 0x64 does not exceed 0x99 (the code compares against the decimal
literal 99 instead); and ADC of 0x90 and 0x05 with carry clear yields
A = 0xF5 with carry set, because the high-nibble correction fires on the
condition intermediate greater than 0x90 although the high nibble 9 does
not exceed 9 (the correct result is 0x95 with carry clear). -/
theorem bcd_add_carry_and_high_nibble_divergence :
    (steppedState (CPU.step bcdCpu1)).map (fun c => (c.registerA, c.status &&& StatusFlags.CARRY)) = some (0x64, 1) ∧
    (steppedState (CPU.step bcdCpu2)).map (fun c => (c.registerA, c.status &&& StatusFlags.CARRY)) = some (0xF5, 1) ∧
    (CPU.bcdAdd bcdCpu1 0x34).registerA = 0x64 ∧
    hasFlag (CPU.bcdAdd bcdCpu1 0x34).status StatusFlags.CARRY = true ∧
    (CPU.bcdAdd bcdCpu2 0x05).registerA = 0xF5 ∧
    hasFlag (CPU.bcdAdd bcdCpu2 0x05).status StatusFlags.CARRY = true := by
  exact ⟨rfl, rfl, rfl, rfl, rfl, rfl⟩

/-- Branch machine: BEQ with offset 0xFF and the zero flag set. -/
def branchCex : CPU := { testCpu [0xF0, 0xFF] with status := StatusFlags.ZERO }

/-- Counterexample to claim C4 as stated: a taken BEQ whose operand byte
(at address 1) is 0xFF, meaning offset -1, should continue at
1 + 1 + (-1) = 1 per the claim, but the run loop continues at 2: the
branch routine sets PC to the target 1, which collides with the saved
program counter, so the loop adds length - 1. -/
theorem branch_offset_minus_one_counterexample :
    (steppedState (CPU.step branchCex)).map (fun c => c.programCounter) = some 2 ∧
    ((1 + 1 + signExt8 0xFF) % 0x10000 : Nat) = 1 ∧ (2 : Nat) ≠ 1 := by
  exact ⟨rfl, by decide, by decide⟩

/-- Claim C4 (amended): for every taken branch instruction whose signed
8-bit offset is not 0xFF (-1), the next instruction is fetched from
PC + 1 + offset, where PC is the address of the operand byte; for offset
0xFF the branch target coincides with the program counter saved by the run
loop, which then adds length - 1, so the next fetch comes from the
fall-through address instead. -/
theorem branch_taken_pc_update (c : CPU) (code j : Nat) (b2 b3 : Bus)
    (hcode : code = 0x90 ∨ code = 0xB0 ∨ code = 0xF0 ∨ code = 0x30 ∨
             code = 0xD0 ∨ code = 0x10 ∨ code = 0x50 ∨ code = 0x70)
    (h1 : c.bus.memRead c.programCounter = .ok (code, b2))
    (h2 : b2.memRead ((c.programCounter + 1) % 0x10000) = .ok (j, b3))
    (hj : j < 256) (hjne : j ≠ 0xFF)
    (hcond : branchPredicate code c.status = true) :
    c.step = .ok (.stepped { c with bus := b3, programCounter := ((c.programCounter + 1) % 0x10000 + 1 + signExt8 j) % 0x10000 }) := by
  have hjm : j % 256 = j := Nat.mod_eq_of_lt hj
  have hne : (((c.programCounter + 1) % 0x10000 ==
      ((c.programCounter + 1) % 0x10000 + 1 + signExt8 j) % 0x10000)) = false := by
    rw [beq_eq_false_iff_ne]
    unfold signExt8
    rcases Nat.lt_or_ge j 0x80 with hlt | hge
    · rw [if_pos hlt]; omega
    · rw [if_neg (by omega)]; omega
  rcases hcode with h|h|h|h|h|h|h|h <;>
    (subst h
     norm_num [branchPredicate] at hcond
     unfold CPU.step
     simp only [CPU.memRead, h1, Except.bind, Bind.bind, opcodeTable_0x90, opcodeTable_0xB0,
                opcodeTable_0xF0, opcodeTable_0x30, opcodeTable_0xD0, opcodeTable_0x10,
                opcodeTable_0x50, opcodeTable_0x70, execOpcode_0x90, execOpcode_0xB0,
                execOpcode_0xF0, execOpcode_0x30, execOpcode_0xD0, execOpcode_0x10,
                execOpcode_0x50, execOpcode_0x70]
     unfold CPU.branch
     simp only [hcond, if_true, CPU.memRead, h2, Except.bind, Bind.bind, Except.map, hjm, hne,
                Bool.not_false, Bool.not_true, Bool.false_eq_true, Bool.true_eq_false, if_false,
                eq_self_iff_true])

/-- Branch machine for the witness: BEQ with offset 5 and the zero flag set
within an otherwise reset status byte. -/
def branchW : CPU := { testCpu [0xF0, 0x05] with status := 0x26 }

/-- Witness for branch_taken_pc_update at a concrete taken BEQ with
offset 5. -/
theorem branch_taken_pc_update_witness :
    CPU.step branchW = .ok (.stepped { branchW with bus := branchW.bus, programCounter := ((branchW.programCounter + 1) % 0x10000 + 1 + signExt8 5) % 0x10000 }) :=
  branch_taken_pc_update branchW 0xF0 5 branchW.bus branchW.bus
    (Or.inr (Or.inr (Or.inl rfl))) rfl rfl (by norm_num) (by norm_num) rfl

/-- PPU about to enter scanline 241 with NMI generation disabled. -/
def tickPpu0 : PPU := { PPU.new [] .horizontal with scanline := 240, cycles := 340 }

/-- PPU about to enter scanline 241 with NMI generation enabled. -/
def tickPpu1 : PPU := { tickPpu0 with ctrl := 0x80 }

/-- Claim C5 (divergence): a tick that enters scanline 241 sets the VBLANK
status flag only when the CTRL NMI-enable bit is set, not unconditionally:
with CTRL = 0 the flag stays clear (first three conjuncts), with the
NMI-enable bit set both VBLANK and the NMI-pending flag are raised (last
three conjuncts).  Both updates sit under the NMI-enable test in
PPU::tick. -/
theorem ppu_tick_vblank_gated_by_nmi_enable :
    (tickPpu0.tick 3).2.scanline = 241 ∧
    (tickPpu0.tick 3).2.status &&& 0x80 = 0 ∧
    (tickPpu0.tick 3).2.nmiInterrupt = false ∧
    (tickPpu1.tick 3).2.scanline = 241 ∧
    (tickPpu1.tick 3).2.status &&& 0x80 = 0x80 ∧
    (tickPpu1.tick 3).2.nmiInterrupt = true := by
  exact ⟨rfl, rfl, rfl, rfl, rfl, rfl⟩

/-- PPU with the VRAM address at 0x3F00, read buffer 0x42, palette entry 0
holding 0x2A, and all nametable bytes holding 7. -/
def palPpu : PPU :=
  { PPU.new [] .horizontal with
      addr := { hiValue := 0x3F, loValue := 0x00, hiPtr := true }
      internalDataBuf := 0x42
      paletteTable := fun i => if i = 0 then 0x2A else 0
      vram := fun _ => 7 }

/-- PPU with the VRAM address at 0x3F20, the first palette mirror slot. -/
def palPpuHigh : PPU :=
  { PPU.new [] .horizontal with addr := { hiValue := 0x3F, loValue := 0x20, hiPtr := true } }

/-- Counterexample to claim C6 as stated: a DATA read at VRAM address
0x3F00 returns the palette entry 0x2A but leaves the internal read buffer
at 0x42 although every byte of the mirrored nametable below holds 7, so
the buffer is NOT refilled from the nametable; and a DATA read at 0x3F20,
which is inside the claimed 0x3F00-0x3FFF window, panics with an
out-of-range palette index instead of returning a palette entry. -/
theorem palette_read_buffer_counterexample :
    PPU.readData palPpu = .ok (0x2A, palPpu.incVramAddr) ∧
    palPpu.incVramAddr.internalDataBuf = 0x42 ∧
    palPpu.vram (palPpu.mirrorVramAddr 0x2F00) = 7 ∧
    (0x42 : Nat) ≠ 7 ∧
    PPU.readData palPpuHigh = .error (.ppuIndexOutOfRange 0x3F20) := by
  exact ⟨rfl, rfl, rfl, by decide, rfl⟩

/-- Claim C6 (amended): for every PPU whose VRAM address lies in
0x3F00-0x3F1F, a DATA read returns the palette entry at addr - 0x3F00
directly (unbuffered), leaves the internal read buffer unchanged, and
increments the VRAM address by 1 or 32 according to CTRL bit 2; the
addresses 0x3F20-0x3FFF panic on the 32-byte palette instead. -/
theorem palette_read_unbuffered (p : PPU)
    (h1 : 0x3F00 ≤ p.addr.getAddr) (h2 : p.addr.getAddr ≤ 0x3F1F) :
    p.readData = .ok (p.paletteTable (p.addr.getAddr - 0x3F00), p.incVramAddr) ∧
    p.incVramAddr.internalDataBuf = p.internalDataBuf ∧
    p.incVramAddr.addr = p.addr.increment (if p.ctrl &&& 0x04 == 0x04 then 32 else 1) := by
  refine ⟨?_, rfl, rfl⟩
  unfold PPU.readData
  rw [if_neg (by omega), if_neg (by omega), if_neg (by omega), if_pos (by omega),
      if_pos (by omega)]
  rfl

/-- Witness for palette_read_unbuffered at the concrete PPU palPpu. -/
theorem palette_read_unbuffered_witness :
    PPU.readData palPpu = .ok (palPpu.paletteTable (palPpu.addr.getAddr - 0x3F00), palPpu.incVramAddr) ∧
    palPpu.incVramAddr.internalDataBuf = palPpu.internalDataBuf ∧
    palPpu.incVramAddr.addr = palPpu.addr.increment (if palPpu.ctrl &&& 0x04 == 0x04 then 32 else 1) :=
  palette_read_unbuffered palPpu (by decide) (by decide)

/-- Claim C7: for every bus state and every address in 0x2000-0x3FFF whose
low three bits select a write-only PPU register (offsets 0, 1, 3, 5 and 6:
CTRL, MASK, OAMADDR, SCROLL, ADDR), a read fails with WriteOnlyRead
carrying the base register address; and every mirrored address in
0x2008-0x3FFF reads identically to its base register under the
addr AND 0x2007 mirror. -/
theorem write_only_register_reads_fail :
    (∀ (b : Bus) (addr : Nat), 0x2000 ≤ addr → addr ≤ 0x3FFF →
       (addr % 8 = 0 ∨ addr % 8 = 1 ∨ addr % 8 = 3 ∨ addr % 8 = 5 ∨ addr % 8 = 6) →
       b.memRead addr = .error (.writeOnlyRead (0x2000 + addr % 8))) ∧
    (∀ (b : Bus) (addr : Nat), 0x2008 ≤ addr → addr ≤ 0x3FFF →
       b.memRead addr = b.memRead (addr &&& 0x2007)) := by
  constructor
  · intro b addr h1 h2 h3
    have hm := mask2007 addr h1 h2
    rcases Nat.lt_or_ge addr 0x2008 with hlo | hhi
    · rcases h3 with h | h | h | h | h <;>
        · have ha : addr = 0x2000 + addr % 8 := by omega
          rw [ha, h]
          rw [Bus.memRead, if_neg (by norm_num), if_pos (by norm_num)]
          rw [Bus.ppuRegisterRead, if_pos (by norm_num)]
    · rw [Bus.memRead, if_neg (by omega), if_neg (by omega), if_pos ⟨by omega, h2⟩, hm]
      rcases h3 with h | h | h | h | h <;>
        · rw [h]
          rw [Bus.ppuRegisterRead, if_pos (by norm_num)]
  · intro b addr h1 h2
    have hm := mask2007 addr (by omega) h2
    have hlt : addr % 8 < 8 := Nat.mod_lt _ (by norm_num)
    rw [Bus.memRead, Bus.memRead]
    rw [if_neg (by omega), if_neg (by omega), if_pos ⟨h1, h2⟩]
    rw [hm]
    rw [if_neg (by omega), if_pos (by omega)]

/-- Witness for write_only_register_reads_fail: a mirrored SCROLL offset
(0x3455 has low bits 5) errors, and the mirror 0x2008 reads like its
base 0x2000. -/
theorem write_only_register_reads_fail_witness :
    (testBus []).memRead 0x3455 = .error (.writeOnlyRead (0x2000 + 0x3455 % 8)) ∧
    (testBus []).memRead 0x2008 = (testBus []).memRead (0x2008 &&& 0x2007) :=
  ⟨write_only_register_reads_fail.1 (testBus []) 0x3455 (by norm_num) (by norm_num) (by norm_num),
   write_only_register_reads_fail.2 (testBus []) 0x2008 (by norm_num) (by norm_num)⟩

/-- CPU whose next instruction is LDA $2000 (absolute read of the
write-only CTRL register). -/
def traceCpuA : CPU := testCpu [0xAD, 0x00, 0x20]

/-- PPU with the VRAM address in a nametable, distinct buffer and
nametable contents. -/
def tracePpu : PPU :=
  { PPU.new [] .horizontal with
      addr := { hiValue := 0x23, loValue := 0x00, hiPtr := true }
      vram := fun _ => 0x5A
      internalDataBuf := 0x11 }

/-- CPU whose next instruction is LDA $2007 (absolute read of the PPU DATA
register) with tracePpu behind the bus. -/
def traceCpuB : CPU :=
  { testCpu [0xAD, 0x07, 0x20] with bus := { testBus [0xAD, 0x07, 0x20] with ppu := tracePpu } }

/-- Claim C8 (divergence): the memory reads performed by trace are not
side-effect free.  Tracing LDA $2000 reads the effective address 0x2000
through the bus and panics on the write-only register; tracing LDA $2007
succeeds but replaces the PPU read buffer (0x11 becomes the nametable byte
0x5A) and advances the VRAM address from 0x2300 to 0x2301, so the machine
state after the trace differs from the state before it. -/
theorem trace_reads_effectful :
    traceCpuA.traceReads = .error (.writeOnlyRead 0x2000) ∧
    (traceCpuB.traceReads.map fun b => (b.ppu.internalDataBuf, b.ppu.addr.getAddr)) = .ok (0x5A, 0x2301) ∧
    traceCpuB.bus.ppu.internalDataBuf = 0x11 ∧
    traceCpuB.bus.ppu.addr.getAddr = 0x2300 ∧
    (0x11 : Nat) ≠ 0x5A := by
  exact ⟨rfl, rfl, rfl, rfl, by decide⟩

/-- CPU constructed, but never reset, over a bus whose RAM byte at 0 is the
INX opcode and whose reset vector bytes (in ROM) are nonzero. -/
def noResetCpu : CPU := CPU.new (testBus [0xE8])

/-- Claim C9: CPU::new yields A = X = Y = 0, S = 0xFD, P = 0x24 and PC = 0
without touching the bus; reset is what loads PC from the 16-bit vector at
0xFFFC; and a CPU stepped without a prior reset fetches from address
0x0000 (the concrete machine executes the INX stored at RAM address 0). -/
theorem cpu_new_reset_contract :
    (∀ b : Bus, (CPU.new b).registerA = 0 ∧ (CPU.new b).registerX = 0 ∧
       (CPU.new b).registerY = 0 ∧ (CPU.new b).stackPointer = 0xFD ∧
       (CPU.new b).status = 0x24 ∧ (CPU.new b).programCounter = 0 ∧ (CPU.new b).bus = b) ∧
    (∀ (c : CPU) (v : Nat) (b2 : Bus), c.bus.memReadU16 0xFFFC = .ok (v, b2) →
       c.reset = .ok { c with registerA := 0, registerX := 0, registerY := 0, stackPointer := 0xFD, status := 0x24, bus := b2, programCounter := v }) ∧
    ((steppedState (CPU.step noResetCpu)).map (fun c => (c.registerX, c.programCounter)) = some (1, 1)) := by
  refine ⟨fun b => ⟨rfl, rfl, rfl, rfl, rfl, rfl, rfl⟩, ?_, rfl⟩
  intro c v b2 h
  unfold CPU.reset CPU.memReadU16
  simp only [h, Except.bind, Bind.bind]

/-- Witness for the reset part of cpu_new_reset_contract: resetting a CPU
over romBus loads PC from the all-sevens reset vector. -/
theorem cpu_new_reset_contract_witness :
    (CPU.new romBus).reset = .ok { CPU.new romBus with registerA := 0, registerX := 0, registerY := 0, stackPointer := 0xFD, status := 0x24, bus := romBus, programCounter := (7 <<< 8) ||| 7 } :=
  cpu_new_reset_contract.2.1 (CPU.new romBus) ((7 <<< 8) ||| 7) romBus
    (romBus_read_u16 0xFFFC (by norm_num) (by norm_num))

/-- Claim C10: the default 16-bit memory accessors wrap at the top of the
address space: reading 16 bits at 0xFFFF takes the low byte from 0xFFFF
and the high byte from 0x0000, and writing 16 bits at 0xFFFF puts the low
byte at 0xFFFF and the high byte at 0x0000. -/
theorem mem_u16_wraps_at_top :
    (∀ (b b1 b2 : Bus) (lo hi : Nat), b.memRead 0xFFFF = .ok (lo, b1) →
       b1.memRead 0x0000 = .ok (hi, b2) →
       b.memReadU16 0xFFFF = .ok ((hi <<< 8) ||| lo, b2)) ∧
    (∀ (b b1 b2 : Bus) (data : Nat), b.memWrite 0xFFFF (data % 256) = .ok b1 →
       b1.memWrite 0x0000 ((data / 256) % 256) = .ok b2 →
       b.memWriteU16 0xFFFF data = .ok b2) := by
  have hwrap : (0xFFFF + 1) % 0x10000 = 0 := by norm_num
  constructor
  · intro b b1 b2 lo hi h1 h2
    unfold Bus.memReadU16
    simp only [h1, hwrap, h2, Except.bind, Bind.bind]
  · intro b b1 b2 data h1 h2
    unfold Bus.memWriteU16
    simp only [h1, hwrap, h2, Except.bind, Bind.bind]

/-- Witness for mem_u16_wraps_at_top on romBus: the 16-bit read at 0xFFFF
assembles the ROM byte 7 from 0xFFFF with the RAM byte 9 from 0x0000, and
the 16-bit write of 0xABCD at 0xFFFF lands its low byte in ROM slot
0x7FFF and its high byte in RAM slot 0. -/
theorem mem_u16_wraps_at_top_witness :
    romBus.memReadU16 0xFFFF = .ok ((9 <<< 8) ||| 7, romBus) ∧
    romBus.memWriteU16 0xFFFF 0xABCD = .ok romBusW2 :=
  ⟨mem_u16_wraps_at_top.1 romBus romBus romBus 7 9
     (romBus_read_rom 0xFFFF (by norm_num) (by norm_num)) romBus_read_zero,
   mem_u16_wraps_at_top.2 romBus romBusW1 romBusW2 0xABCD romBus_write_hi romBus_write_lo⟩

end Rusticom
